import Mathlib

/-!
# TestingWidget.js: the polling data source and the value-rendering widgets

A shallow embedding of `src/TestingWidget.js` (the Sign In App freeboard plugin):
the data source `siaDatasource`, the overlays `createSpinner` / `createError`,
the inline `createWidgetError`, and the widgets `bigNumberWidget`, `tableWidget`
and `graphWidget`.

Modelling conventions

* JavaScript values are the type `JsVal`; a number is a `JsNumber`, whose finite
  values are rationals (every double is one; the sign of zero is not tracked).
  An array is the object whose keys are its indices, which is how `Object.keys`,
  `Object.values` and property lookup see it.
* An object is the list of its own enumerable properties in enumeration order.
* A raised exception is `Except.error`; `try`/`catch` is a `match` on the result.
* The document is the forest of elements under `document.body`; the state of an
  instance is a record of its closure variables, passed explicitly.
* `Math.random()` is a component of the environment: the successive draws, each
  given by the digits of its base-36 rendering after `0.` (a draw of exactly
  zero, which has no such digits, is left out).
* An `await` splits `getData` in the part that runs up to the request and the
  part that runs when the response arrives.
-/

namespace TestingWidget

/-! ## JavaScript values -/

/-- A JavaScript number: a finite value, `NaN`, or one of the infinities. -/
inductive JsNumber where
  | finite (q : ℚ)
  | nan
  | posInf
  | negInf
  deriving DecidableEq, Repr

/-- A JavaScript value, as far as the plugin inspects one. -/
inductive JsVal where
  | undefined
  | null
  | bool (b : Bool)
  | num (n : JsNumber)
  | str (s : String)
  | obj (props : List (String × JsVal))
  deriving Repr

/-- The empty object literal. -/
def JsVal.emptyObject : JsVal := .obj []

/-- An exception or rejection value, seen through the one property the code
reads from it (`status`); `name` tells the kinds apart. -/
structure ErrObj where
  name : String
  status : JsVal
  deriving Repr

/-- The `TypeError` raised by a property access or call on a missing value. -/
def typeError : ErrObj := { name := "TypeError", status := .undefined }

/-- The `InvalidCharacterError` that `btoa` raises. -/
def invalidCharacterError : ErrObj := { name := "InvalidCharacterError", status := .undefined }

/-- Strict equality with a number literal: `v === n` for an integer `n`. -/
def JsVal.strictEqNat (v : JsVal) (n : Nat) : Bool :=
  match v with
  | .num (.finite q) => decide (q = (n : ℚ))
  | _ => false

/-- String conversion of a settings field inside a concatenation or a template
literal: a missing field reads `undefined`. -/
def strOf : Option String → String
  | some s => s
  | none => "undefined"

/-! ## String to number (unary plus) -/

/-- The decimal value of a digit character. -/
def digitVal? (c : Char) : Option Nat :=
  if 48 ≤ c.toNat ∧ c.toNat ≤ 57 then some (c.toNat - 48) else none

/-- The value of a character as a hexadecimal digit. -/
def hexVal? (c : Char) : Option Nat :=
  if 48 ≤ c.toNat ∧ c.toNat ≤ 57 then some (c.toNat - 48)
  else if 97 ≤ c.toNat ∧ c.toNat ≤ 102 then some (c.toNat - 87)
  else if 65 ≤ c.toNat ∧ c.toNat ≤ 70 then some (c.toNat - 55)
  else none

/-- White space and line terminators that `StringToNumber` strips at both ends. -/
def isStrWhiteSpace (c : Char) : Bool :=
  let n := c.toNat
  n == 9 || n == 10 || n == 11 || n == 12 || n == 13 || n == 32 || n == 160 ||
  n == 5760 || (8192 ≤ n && n ≤ 8202) || n == 8232 || n == 8233 || n == 8239 ||
  n == 8287 || n == 12288 || n == 65279

/-- Strip leading and trailing white space. -/
def trimWhiteSpace (cs : List Char) : List Char :=
  ((cs.dropWhile isStrWhiteSpace).reverse.dropWhile isStrWhiteSpace).reverse

/-- The leading decimal digits of the input, and what follows them. -/
def takeDigits : List Char → List Nat × List Char
  | [] => ([], [])
  | c :: cs =>
    match digitVal? c with
    | some d => ((takeDigits cs).1.cons d, (takeDigits cs).2)
    | none => ([], c :: cs)

/-- The number a list of digits denotes in the given radix. -/
def natOfDigits (radix : Nat) (ds : List Nat) : Nat :=
  ds.foldl (fun acc d => radix * acc + d) 0

/-- Every character read as a digit below `radix`, or nothing. -/
def allDigits? (radix : Nat) : List Char → Option (List Nat)
  | [] => some []
  | c :: cs =>
    match hexVal? c, allDigits? radix cs with
    | some d, some ds => if d < radix then some (d :: ds) else none
    | _, _ => none

/-- Bit length minus one, by halving (`fuel` bounds the number of halvings). -/
def log2Aux : Nat → Nat → Nat
  | 0, _ => 0
  | fuel + 1, n => if n < 2 then 0 else log2Aux fuel (n / 2) + 1

/-- The floor of the binary logarithm of `n / d`, for positive `n` and `d`. -/
def floorLog2Quot (n d : Nat) : Int :=
  let e0 : Int := (log2Aux n n : Int) - (log2Aux d d : Int)
  if 0 ≤ e0 then (if d * 2 ^ e0.toNat ≤ n then e0 else e0 - 1)
  else (if d ≤ n * 2 ^ (-e0).toNat then e0 else e0 - 1)

/-- The integer nearest to `n / d`, a tie going to the even neighbour. -/
def roundHalfEven (n d : Nat) : Nat :=
  let q := n / d
  let r := n % d
  if 2 * r < d then q else if d < 2 * r then q + 1 else if q % 2 = 0 then q else q + 1

/-- The double nearest to the non-negative rational `n / d` (round to nearest,
ties to even, 53 significant bits, smallest unit `2^-1074`). The rounded value
is `m * 2^u` with `m ≤ 2^53`; it reaches `2^1024`, and so becomes `Infinity`,
exactly when `u > 971`, or `u = 971` and `m = 2^53`. -/
def roundToDouble (n d : Nat) : JsNumber :=
  if n = 0 then .finite 0 else
  let e := floorLog2Quot n d
  let u : Int := max (e - 52) (-1074)
  if 0 ≤ u then
    let m := roundHalfEven n (d * 2 ^ u.toNat)
    if 971 < u ∨ (u = 971 ∧ 2 ^ 53 ≤ m) then .posInf else .finite ((m * 2 ^ u.toNat : Nat) : ℚ)
  else
    let m := roundHalfEven (n * 2 ^ (-u).toNat) d
    .finite (mkRat (m : Int) (2 ^ (-u).toNat))

/-- The double nearest to `m * 10 ^ e`. -/
def decimalToDouble (m : Nat) (e : Int) : JsNumber :=
  if 0 ≤ e then roundToDouble (m * 10 ^ e.toNat) 1 else roundToDouble m (10 ^ (-e).toNat)

/-- Negation of a number. -/
def JsNumber.neg : JsNumber → JsNumber
  | .finite q => .finite (-q)
  | .nan => .nan
  | .posInf => .negInf
  | .negInf => .posInf

/-- An `ExponentPart` filling the rest of the literal (or nothing at all). -/
def parseExponent : List Char → Option Int
  | [] => some 0
  | c :: cs =>
    if c = 'e' ∨ c = 'E' then
      let signed : Bool × List Char :=
        match cs with
        | '+' :: r => (false, r)
        | '-' :: r => (true, r)
        | r => (false, r)
      let ds := takeDigits signed.2
      if ds.1 = [] ∨ ds.2 ≠ [] then none
      else some (if signed.1 then -(natOfDigits 10 ds.1 : Int) else (natOfDigits 10 ds.1 : Int))
    else none

/-- A `StrUnsignedDecimalLiteral`: `Infinity`, or digits with an optional
fraction and exponent. -/
def parseUnsignedDecimal (cs : List Char) : JsNumber :=
  if cs = "Infinity".data then .posInf else
  let ip := takeDigits cs
  let fp : List Nat × List Char :=
    match ip.2 with
    | '.' :: r => takeDigits r
    | r => ([], r)
  if ip.1 = [] ∧ fp.1 = [] then .nan else
  match parseExponent fp.2 with
  | none => .nan
  | some e => decimalToDouble (natOfDigits 10 (ip.1 ++ fp.1)) (e - fp.1.length)

/-- A `NonDecimalIntegerLiteral` body: at least one digit below `radix`. -/
def parseRadix (radix : Nat) (cs : List Char) : JsNumber :=
  match cs, allDigits? radix cs with
  | _ :: _, some ds => roundToDouble (natOfDigits radix ds) 1
  | _, _ => .nan

/-- The abstract operation `StringToNumber`, which unary plus applies to a string. -/
def stringToNumber (s : String) : JsNumber :=
  match trimWhiteSpace s.data with
  | [] => .finite 0
  | '0' :: 'x' :: r => parseRadix 16 r
  | '0' :: 'X' :: r => parseRadix 16 r
  | '0' :: 'o' :: r => parseRadix 8 r
  | '0' :: 'O' :: r => parseRadix 8 r
  | '0' :: 'b' :: r => parseRadix 2 r
  | '0' :: 'B' :: r => parseRadix 2 r
  | '+' :: r => parseUnsignedDecimal r
  | '-' :: r => (parseUnsignedDecimal r).neg
  | r => parseUnsignedDecimal r

/-- The pieces of a string between commas: `s.split(',')`. -/
def splitComma : List Char → List (List Char)
  | [] => [[]]
  | c :: cs =>
    if c = ',' then [] :: splitComma cs
    else
      match splitComma cs with
      | t :: ts => (c :: t) :: ts
      | [] => [[c]]

/-- The identifier list of a settings field: `ids.split(',').map(x => +x)`. -/
def parseIds (ids : String) : List JsNumber :=
  (splitComma ids.data).map (fun t => stringToNumber (String.mk t))

/-- Decimal rendering of an index or counter (`String(i)`, `\x27td-\x27 + n`). -/
def natStr (n : Nat) : String := toString n

/-! ## The document -/

/-- The attributes of an element that the plugin sets or reads. `html` is the
content given through `innerHTML` or `html()`; `display` is `style.display`. -/
structure Attrs where
  tag : String
  id : Option String
  classes : List String
  display : String
  html : String
  deriving DecidableEq, Repr

/-- An element with its child elements. -/
inductive Elem where
  | node (a : Attrs) (children : List Elem)
  deriving Repr

/-- The document: the children of `document.body`, in order. -/
abbrev Doc := List Elem

/-- A fresh element as `document.createElement` followed by the attribute
assignments of the source gives it. -/
def mkElem (tag : String) (id : Option String) (classes : List String) (html : String)
    (children : List Elem) : Elem :=
  .node { tag := tag, id := id, classes := classes, display := "", html := html } children

/-- The attributes of an element. -/
def Elem.attrs : Elem → Attrs
  | .node a _ => a

/-- The child elements of an element. -/
def Elem.children : Elem → List Elem
  | .node _ cs => cs

mutual
/-- The first element with the given id in the subtree, in document order. -/
def Elem.find (i : String) : Elem → Option Elem
  | .node a cs => if a.id = some i then some (.node a cs) else Elem.findIn i cs
/-- The first element with the given id in a forest, in document order:
`document.getElementById(i)` and `document.querySelector('#' + i)`. -/
def Elem.findIn (i : String) : List Elem → Option Elem
  | [] => none
  | e :: es =>
    match Elem.find i e with
    | some r => some r
    | none => Elem.findIn i es
end

mutual
/-- Remove the first element with the given id strictly inside the element. -/
def Elem.removeInside (i : String) : Elem → Option Elem
  | .node a cs =>
    match Elem.removeIn i cs with
    | some cs1 => some (.node a cs1)
    | none => none
/-- Remove the first element (in document order) with the given id from a
forest, with its subtree: `el.remove()` on the result of the lookup. `none`
when no element has the id. -/
def Elem.removeIn (i : String) : List Elem → Option (List Elem)
  | [] => none
  | e :: es =>
    if e.attrs.id = some i then some es
    else
      match Elem.removeInside i e with
      | some e1 => some (e1 :: es)
      | none =>
        match Elem.removeIn i es with
        | some es1 => some (e :: es1)
        | none => none
end

mutual
/-- Apply `f` to the first element with the given id in the subtree. -/
def Elem.modify (i : String) (f : Elem → Elem) : Elem → Option Elem
  | .node a cs =>
    if a.id = some i then some (f (.node a cs))
    else
      match Elem.modifyIn i f cs with
      | some cs1 => some (.node a cs1)
      | none => none
/-- Apply `f` to the first element with the given id in a forest; `none` when
no element has the id. -/
def Elem.modifyIn (i : String) (f : Elem → Elem) : List Elem → Option (List Elem)
  | [] => none
  | e :: es =>
    match Elem.modify i f e with
    | some e1 => some (e1 :: es)
    | none =>
      match Elem.modifyIn i f es with
      | some es1 => some (e :: es1)
      | none => none
end

mutual
/-- Append `x` after the last sibling of the first element with the given id,
when that element lies strictly inside this one. -/
def Elem.appendBesideInside (i : String) (x : Elem) : Elem → Option Elem
  | .node a cs =>
    match Elem.appendBesideIn i x cs with
    | some cs1 => some (.node a cs1)
    | none => none
/-- In a forest that is the child list of one parent: append `x` as the last
child of the parent of the first element with the given id
(`document.querySelector('#' + i).parentElement.append(x)`); `none` when no
element has the id. -/
def Elem.appendBesideIn (i : String) (x : Elem) : List Elem → Option (List Elem)
  | [] => none
  | e :: es =>
    if e.attrs.id = some i then some (e :: (es ++ [x]))
    else
      match Elem.appendBesideInside i x e with
      | some e1 => some (e1 :: es)
      | none =>
        match Elem.appendBesideIn i x es with
        | some es1 => some (e :: es1)
        | none => none
end

mutual
/-- Append `x` as the last child of the element reached by the path of child
indices. -/
def Elem.appendAt (x : Elem) : List Nat → Elem → Option Elem
  | [], .node a cs => some (.node a (cs ++ [x]))
  | k :: ks, .node a cs =>
    match Elem.appendAtIn x k ks cs with
    | some cs1 => some (.node a cs1)
    | none => none
/-- Append `x` as the last child of the element that is reached from the
`k`-th tree of the forest by the path `ks`; `none` when the path leads nowhere. -/
def Elem.appendAtIn (x : Elem) : Nat → List Nat → List Elem → Option (List Elem)
  | _, _, [] => none
  | 0, ks, e :: es =>
    match Elem.appendAt x ks e with
    | some e1 => some (e1 :: es)
    | none => none
  | k + 1, ks, e :: es =>
    match Elem.appendAtIn x k ks es with
    | some es1 => some (e :: es1)
    | none => none
end

mutual
/-- The number of elements of the subtree whose attributes satisfy `p`. -/
def Elem.count (p : Attrs → Bool) : Elem → Nat
  | .node a cs => (if p a then 1 else 0) + Elem.countIn p cs
/-- The number of elements of a forest whose attributes satisfy `p`. -/
def Elem.countIn (p : Attrs → Bool) : List Elem → Nat
  | [] => 0
  | e :: es => Elem.count p e + Elem.countIn p es
end

/-- `$(el).empty()`: drop the children and the content of an element. -/
def Elem.empty : Elem → Elem
  | .node a _ => .node { a with html := "" } []

/-- `$(el).append(x)`: add `x` as the last child. -/
def Elem.append (x : Elem) : Elem → Elem
  | .node a cs => .node a (cs ++ [x])

/-- Assign `style.display`. -/
def Elem.setDisplay (d : String) : Elem → Elem
  | .node a cs => .node { a with display := d } cs

/-! ## The environment of the plugin instances -/

/-- The settings of the data source: the five text fields of its descriptor; a
field that was never filled in is `undefined`. -/
structure Settings where
  site_ids : Option String
  group_ids : Option String
  client_key : Option String
  secret_key : Option String
  region_url : Option String
  deriving DecidableEq, Repr

/-- What `callAPI` hands to `$.ajax`: the url, the body and the credentials
that go, base64-encoded, into the `Authorization: Basic` header. -/
structure Request where
  url : String
  sites : List JsNumber
  groups : List JsNumber
  auth : String
  deriving DecidableEq, Repr

/-- The calls the data source makes that are visible from outside, in the
order in which they happen. -/
inductive Event where
  | getData
  | ajax (req : Request)
  | createError (err : ErrObj)
  | spinnerShow (val : Bool)
  | updateCallback (data : JsVal)
  deriving Repr

/-- An interval set with `setInterval`: its handle and its period. -/
structure Interval where
  handle : Nat
  delay : Nat
  deriving DecidableEq, Repr

/-- What the instances share with the page: the document, the source of
`Math.random()` (its successive draws and how many were taken), the intervals
that are active, the requests awaiting their response and the trace of calls. -/
structure World where
  doc : Doc
  random : Nat → String
  randomCalls : Nat
  intervals : List Interval
  nextHandle : Nat
  inFlight : List Request
  log : List Event

/-- Append an event to the trace. -/
def World.emit (w : World) (e : Event) : World :=
  { w with log := w.log ++ [e] }

/-- The constant `REFRESH_TIME_MILLIS`. -/
def REFRESH_TIME_MILLIS : Nat := 60000

/-- The constant `DASHBOARD_ENDPOINT`. -/
def DASHBOARD_ENDPOINT : String := "/dashboard"

/-- The function `generateId`: `Math.random().toString(36).replace('0.', 'SIA')`,
on the digits that follow `0.` in the base-36 rendering of the draw. -/
def generateId (w : World) : String × World :=
  ("SIA" ++ w.random w.randomCalls, { w with randomCalls := w.randomCalls + 1 })

/-- The browser function `setInterval`: a new interval with a fresh handle. -/
def World.setInterval (w : World) (delay : Nat) : Nat × World :=
  (w.nextHandle,
    { w with intervals := w.intervals ++ [{ handle := w.nextHandle, delay := delay }],
             nextHandle := w.nextHandle + 1 })

/-- The browser function `clearInterval`: the interval with that handle, if
any, is no longer active; `undefined` clears nothing. -/
def World.clearInterval (w : World) (h : Option Nat) : World :=
  match h with
  | none => w
  | some k => { w with intervals := w.intervals.filter (fun i => i.handle != k) }

/-! ## The overlays -/

/-- The object `createSpinner` returns: the `shown` flag and the id of the
subtree last appended (`null` at first). -/
structure Spinner where
  shown : Bool
  id : Option String
  deriving DecidableEq, Repr

/-- The function `createSpinner`. -/
def createSpinner : Spinner := { shown := false, id := none }

/-- The subtree the `show` setter builds for `val = true`. -/
def loaderWrapper (id : String) : Elem :=
  mkElem "div" (some id) ["loader-wrapper"] ""
    [mkElem "div" none ["loader-content"] ""
      [mkElem "div" none ["loader"] "" [],
       mkElem "p" none ["loader-text"] "Fetching data from Sign In App..." []]]

/-- The setter `set show(val)` of the spinner. Showing appends a new subtree
under a newly generated id; hiding removes the element that carries `this.id`
(the selector is `#null` while the id is still `null`). -/
def Spinner.setShow (sp : Spinner) (val : Bool) (w : World) : Spinner × World :=
  if val then
    let g := generateId w
    ({ shown := val, id := some g.1 }, { g.2 with doc := g.2.doc ++ [loaderWrapper g.1] })
  else
    match Elem.removeIn (sp.id.getD "null") w.doc with
    | some d => ({ sp with shown := val }, { w with doc := d })
    | none => ({ sp with shown := val }, w)

/-- The text `createError` chooses by `switch (err.status)`. -/
def errorText (err : ErrObj) : String :=
  if err.status.strictEqNat 401 then
    "401 - unauthorised. Please check that your client key and secret key are correct."
  else if err.status.strictEqNat 422 then
    "422 - unprocessable entity. Please check that your site ids and group ids are correct."
  else if err.status.strictEqNat 429 then
    "429 - too many requests. Please close this tab and try again in a few minutes."
  else
    "Something went wrong. Please check your datasource settings and try again."

/-- The dialog `createError` builds. -/
def errorWrapper (err : ErrObj) : Elem :=
  mkElem "div" (some "error-wrapper") ["loader-wrapper"] ""
    [mkElem "div" none ["loader-content"] ""
      [mkElem "p" none ["loader-text"] (errorText err) [],
       mkElem "button" none ["error-button"] "Close" []]]

/-- The function `createError`: nothing while a dialog is displayed, else a
new dialog at the end of the body. -/
def createError (err : ErrObj) (doc : Doc) : Doc :=
  match Elem.findIn "error-wrapper" doc with
  | some _ => doc
  | none => doc ++ [errorWrapper err]

/-- The `onclick` of the Close button:
`document.querySelector('#error-wrapper').remove()`. -/
def errorButtonClick (doc : Doc) : Except ErrObj Doc :=
  match Elem.removeIn "error-wrapper" doc with
  | some d => .ok d
  | none => .error typeError

/-- The text of the dialog on display: the content of the first `p` in the
content box of the element with id `error-wrapper`. -/
def displayedErrorText (doc : Doc) : Option String :=
  match Elem.findIn "error-wrapper" doc with
  | some (.node _ (.node _ (.node t _ :: _) :: _)) => some t.html
  | _ => none

/-- The element `createWidgetError` builds. -/
def widgetErrorElem (widgetId : String) : Elem :=
  mkElem "div" (some (widgetId ++ "error")) ["sia-widget-error"]
    "Sorry, one of the values provided is in the wrong format. Please check the widget\x27s settings."
    []

/-- The function `createWidgetError`: the message is appended to the parent of
the widget element; a `TypeError` when the document has no such element. -/
def createWidgetError (widgetId : String) (doc : Doc) : Except ErrObj Doc :=
  match Elem.appendBesideIn widgetId (widgetErrorElem widgetId) doc with
  | some d => .ok d
  | none => .error typeError

/-! ## The data source `siaDatasource` -/

/-- The closure variables of a data source instance. -/
structure Datasource where
  currentSettings : Settings
  refreshTimer : Option Nat
  spinner : Spinner
  deriving DecidableEq, Repr

/-- The function `callAPI`: `$.ajax` runs `beforeSend`, where `btoa` raises
when the credentials hold a character above U+00FF; otherwise the request is
sent. -/
def callAPI (url : String) (sites groups : List JsNumber) (auth : String) :
    Except ErrObj Request :=
  if auth.data.all (fun c => decide (c.toNat ≤ 255)) then
    .ok { url := url, sites := sites, groups := groups, auth := auth }
  else .error invalidCharacterError

/-- The `try` block of `getData` up to the `await`: url, body and credentials
from the current settings, then `callAPI`. `split` on a missing field raises a
`TypeError`. -/
def buildRequest (s : Settings) : Except ErrObj Request :=
  let url := strOf s.region_url ++ DASHBOARD_ENDPOINT
  match s.site_ids with
  | none => .error typeError
  | some siteIds =>
    match s.group_ids with
    | none => .error typeError
    | some groupIds =>
      let auth := strOf s.client_key ++ ":" ++ strOf s.secret_key
      callAPI url (parseIds siteIds) (parseIds groupIds) auth

/-- The rest of `getData` once the `try` block has its outcome: `data` is the
payload, or stays `{}` after `catch (e) { createError(e) }`; then
`spinner.show = false` and `updateCallback(data)`. -/
def getDataSettle (ds : Datasource) (w : World) (outcome : Except ErrObj JsVal) :
    Datasource × World :=
  let caught : JsVal × World :=
    match outcome with
    | .ok payload => (payload, w)
    | .error e => (JsVal.emptyObject, ({ w with doc := createError e w.doc }).emit (.createError e))
  let hidden := ds.spinner.setShow false caught.2
  ({ ds with spinner := hidden.1 },
    (hidden.2.emit (.spinnerShow false)).emit (.updateCallback caught.1))

/-- The function `getData` up to its first suspension: when the request
cannot be built the cycle ends at once, otherwise the request is in flight. -/
def getData (ds : Datasource) (w : World) : Datasource × World :=
  let w1 := w.emit .getData
  match buildRequest ds.currentSettings with
  | .error e => getDataSettle ds w1 (.error e)
  | .ok req => (ds, ({ w1 with inFlight := w1.inFlight ++ [req] }).emit (.ajax req))

/-- The resumption of `getData` after the `await`: the `k`-th request in flight
settles with a payload or with the rejection value. -/
def getDataResume (ds : Datasource) (w : World) (k : Nat) (outcome : Except ErrObj JsVal) :
    Option (Datasource × World) :=
  if k < w.inFlight.length then
    some (getDataSettle ds { w with inFlight := w.inFlight.eraseIdx k } outcome)
  else none

/-- The method `updateNow`. -/
def updateNow (ds : Datasource) (w : World) : Datasource × World :=
  getData ds w

/-- The function `createRefreshTimer`. -/
def createRefreshTimer (ds : Datasource) (w : World) (interval : Nat) : Datasource × World :=
  let w1 :=
    match ds.refreshTimer with
    | some h => if h ≠ 0 then w.clearInterval (some h) else w
    | none => w
  let t := w1.setInterval interval
  ({ ds with refreshTimer := some t.1 }, t.2)

/-- The method `onSettingsChanged`. -/
def onSettingsChanged (ds : Datasource) (w : World) (newSettings : Settings) :
    Datasource × World :=
  let shown := ds.spinner.setShow true w
  updateNow { ds with currentSettings := newSettings, spinner := shown.1 }
    (shown.2.emit (.spinnerShow true))

/-- The method `onDispose`. -/
def onDispose (ds : Datasource) (w : World) : Datasource × World :=
  ({ ds with refreshTimer := none }, w.clearInterval ds.refreshTimer)

/-- The constructor `siaDatasource`: the spinner is created and shown, and the
refresh timer is started. -/
def siaDatasource (settings : Settings) (w : World) : Datasource × World :=
  let shown := createSpinner.setShow true w
  createRefreshTimer { currentSettings := settings, refreshTimer := none, spinner := shown.1 }
    (shown.2.emit (.spinnerShow true)) REFRESH_TIME_MILLIS

/-- A step of the life of an instance: a tick of an active interval, a call of
one of the three methods by the host, or the arrival of a response. -/
inductive Action where
  | tick (handle : Nat)
  | updateNow
  | onSettingsChanged (newSettings : Settings)
  | onDispose
  | response (k : Nat) (outcome : Except ErrObj JsVal)

/-- The effect of a step; `none` when the step cannot happen (a tick of an
interval that is not active, a response to a request that is not in flight). -/
def step (a : Action) (s : Datasource × World) : Option (Datasource × World) :=
  match a with
  | .tick h => if s.2.intervals.any (fun i => i.handle == h) then some (updateNow s.1 s.2) else none
  | .updateNow => some (updateNow s.1 s.2)
  | .onSettingsChanged n => some (onSettingsChanged s.1 s.2 n)
  | .onDispose => some (onDispose s.1 s.2)
  | .response k outcome => getDataResume s.1 s.2 k outcome

/-- The effect of a sequence of steps. -/
def run : List Action → Datasource × World → Option (Datasource × World)
  | [], s => some s
  | a :: rest, s =>
    match step a s with
    | some s1 => run rest s1
    | none => none

/-! ## The numeric widget `bigNumberWidget` -/

/-- The settings of the numeric widget that the code reads. -/
structure BigNumberSettings where
  caption : Option String
  deriving DecidableEq, Repr

/-- The closure variables of a numeric widget. `table` holds the table element
for as long as it is outside the document; once rendered it is the element of
the document that carries the id of the widget. -/
structure BigNumberWidget where
  id : String
  currentSettings : BigNumberSettings
  table : Option Elem

/-- The constructor `bigNumberWidget`. -/
def bigNumberWidget (settings : BigNumberSettings) (w : World) : BigNumberWidget × World :=
  let g := generateId w
  ({ id := g.1, currentSettings := settings,
     table := some (mkElem "table" (some g.1) ["big-number-table"] "" []) }, g.2)

/-- The method `getHeight` of the numeric widget. -/
def BigNumberWidget.getHeight (_wd : BigNumberWidget) : Nat := 2

/-- The method `render` of the numeric widget: the table becomes the last child
of the container, which the host names by its path of child indices from the
body. Only the first rendering is modelled. -/
def BigNumberWidget.render (wd : BigNumberWidget) (w : World) (container : Nat × List Nat) :
    BigNumberWidget × World :=
  match wd.table with
  | some t =>
    match Elem.appendAtIn t container.1 container.2 w.doc with
    | some d => ({ wd with table := none }, { w with doc := d })
    | none => (wd, w)
  | none => (wd, w)

/-- The method `onSettingsChanged` of the numeric widget. -/
def BigNumberWidget.onSettingsChanged (wd : BigNumberWidget) (newSettings : BigNumberSettings) :
    BigNumberWidget :=
  { wd with currentSettings := newSettings }

/-- Apply a jQuery operation to `$(table)`. -/
def BigNumberWidget.onTable (wd : BigNumberWidget) (f : Elem → Elem) (doc : Doc) :
    BigNumberWidget × Doc :=
  match wd.table with
  | some t => ({ wd with table := some (f t) }, doc)
  | none => (wd, (Elem.modifyIn wd.id f doc).getD doc)

/-- The table element of the widget, wherever it is. -/
def BigNumberWidget.tableElem (wd : BigNumberWidget) (doc : Doc) : Option Elem :=
  match wd.table with
  | some t => some t
  | none => Elem.findIn wd.id doc

/-- The part `[0-9]*` of the pattern: consume the longest run of digits. -/
def dropDigits : List Char → List Char
  | [] => []
  | c :: cs => if 48 ≤ c.toNat ∧ c.toNat ≤ 57 then dropDigits cs else c :: cs

/-- The test `IS_INTEGER.test(s)` for the pattern `/^[0-9]*$/`: from the start
of the string, a run of digits, then the end of the string. -/
def IS_INTEGER (s : String) : Bool :=
  (dropDigits s.data).isEmpty

/-- The row the numeric widget renders. -/
def bigNumberRow (caption : Option String) (newValue : String) : Elem :=
  mkElem "tr" none [] ""
    [mkElem "td" none ["big-caption"] (strOf caption) [],
     mkElem "td" none ["big-value", "cell-fit-content"] newValue []]

/-- The method `onCalculatedValueChanged` of the numeric widget. `newValue` is
the string the value converts to, which is what both the pattern test and the
template read. The second component is the exception raised, if any. -/
def BigNumberWidget.onCalculatedValueChanged (wd : BigNumberWidget) (w : World)
    (_settingName : String) (newValue : String) : (BigNumberWidget × World) × Option ErrObj :=
  let emptied := wd.onTable Elem.empty w.doc
  let doc1 := (Elem.removeIn (wd.id ++ "error") emptied.2).getD emptied.2
  if IS_INTEGER newValue then
    let appended :=
      emptied.1.onTable (Elem.append (bigNumberRow wd.currentSettings.caption newValue)) doc1
    ((appended.1, { w with doc := appended.2 }), none)
  else
    match createWidgetError wd.id doc1 with
    | .ok d => ((emptied.1, { w with doc := d }), none)
    | .error e => ((emptied.1, { w with doc := doc1 }), some e)

/-! ## The tabular widget `tableWidget` -/

/-- The settings of the tabular widget. -/
structure TableSettings where
  title : Option String
  show_header : Bool
  replace_value : Option String
  deriving DecidableEq, Repr

/-- The value the tabular widget expects: `header`, a list of column names,
and `data`, a list of row objects. Values of another shape are outside the
model. -/
structure TableValue where
  header : List String
  data : List (List (String × JsVal))

/-- A body cell: its class and the content last given to it with `html()`. -/
structure Cell where
  cls : String
  html : JsVal

/-- The closure variables of a tabular widget together with what `stateElement`
and `titleElement` hold: the rows of `thead` (each the contents of its `th`
cells), whether `thead` is shown, and the rows of `tbody` when there is one. -/
structure TableWidget where
  currentSettings : TableSettings
  stateObject : List (String × TableValue)
  title : String
  thead : List (List String)
  theadShown : Bool
  tbody : Option (List (List Cell))

/-- The names every object inherits from `Object.prototype`. -/
def objectPrototypeKeys : List String :=
  ["constructor", "__defineGetter__", "__defineSetter__", "hasOwnProperty",
   "__lookupGetter__", "__lookupSetter__", "isPrototypeOf", "propertyIsEnumerable",
   "toString", "valueOf", "__proto__", "toLocaleString"]

/-- The assignment `classObject[headerName] = cls` on an object created by
`{}`: an own property is set, but for `__proto__`, whose setter ignores a
string. -/
def classObjectSet (classObject : List (String × String)) (headerName cls : String) :
    List (String × String) :=
  if headerName = "__proto__" then classObject
  else classObject.filter (fun p => p.1 != headerName) ++ [(headerName, cls)]

/-- The selector `\x27.\x27 + classObject[dataKey]` as jQuery `find` takes it: the
class of the column for a header name, `.undefined` for a name the object
does not know, and a syntax error for a name it inherits from
`Object.prototype`, where the lookup yields a function or an object. -/
def classSelector (classObject : List (String × String)) (dataKey : String) :
    Except ErrObj String :=
  match classObject.lookup dataKey with
  | some cls => .ok ("." ++ cls)
  | none =>
    if objectPrototypeKeys.contains dataKey then
      .error { name := "Error", status := .undefined }
    else .ok ".undefined"

/-- The call `rowHTML.find(sel).html(dataValue)`: every cell of the class gets
the value as content; `html(undefined)` reads and sets nothing. -/
def setCells (sel : String) (dataValue : JsVal) (row : List Cell) : List Cell :=
  match dataValue with
  | .undefined => row
  | v => row.map (fun c => if "." ++ c.cls = sel then { c with html := v } else c)

/-- The pairs `$.each` passes to its callback for a row object. jQuery takes
an object for array-like when its `length` is `0`, or a positive number with
`length - 1` among its keys, and then visits the indices below `length`;
otherwise it visits the properties. (A positive `length` that is not integral
is taken not to be array-like.) -/
def eachEntries (v : List (String × JsVal)) : List (String × JsVal) :=
  match v.lookup "length" with
  | some (.num (.finite q)) =>
    if q = 0 then []
    else if q.isInt ∧ 0 < q.num ∧ (v.lookup (natStr (q.num.toNat - 1))).isSome then
      (List.range q.num.toNat).map (fun i => (natStr i, (v.lookup (natStr i)).getD .undefined))
    else v
  | _ => v

/-- The inner `$.each` of `updateState`: the cells of a cloned template row are
set from the entries of a data row; the first invalid selector raises. -/
def fillRow (classObject : List (String × String)) : List (String × JsVal) → List Cell →
    Except ErrObj (List Cell)
  | [], row => .ok row
  | (dataKey, dataValue) :: rest, row =>
    match classSelector classObject dataKey with
    | .ok sel => fillRow classObject rest (setCells sel dataValue row)
    | .error e => .error e

/-- The outer `$.each` over `data` inside its `try`: each row is filled and
appended to the body; an exception ends the loop, and `catch` only logs it. -/
def bodyRows (classObject : List (String × String)) (templateRow : List Cell) :
    List (List (String × JsVal)) → List (List Cell)
  | [] => []
  | v :: rest =>
    match fillRow classObject (eachEntries v) templateRow with
    | .ok row => row :: bodyRows classObject templateRow rest
    | .error _ => []

/-- The state of the header loop of `updateState`. -/
structure HeaderLoop where
  classObject : List (String × String)
  classCounter : Nat
  headerRow : List String
  templateRow : List Cell

/-- One turn of the header loop. -/
def headerStep (replaceValue : String) (st : HeaderLoop) (headerName : String) : HeaderLoop :=
  { classObject := classObjectSet st.classObject headerName ("td-" ++ natStr st.classCounter),
    classCounter := st.classCounter + 1,
    headerRow := st.headerRow ++ [headerName],
    templateRow := st.templateRow ++ [{ cls := "td-" ++ natStr st.classCounter,
                                         html := .str replaceValue }] }

/-- The function `updateState` of the tabular widget. -/
def TableWidget.updateState (wd : TableWidget) : TableWidget :=
  let cleared := { wd with thead := [], tbody := none }
  let replaceValue := wd.currentSettings.replace_value.getD ""
  match wd.stateObject.lookup "value" with
  | none => cleared
  | some value =>
    let hl := value.header.foldl (headerStep replaceValue)
      { classObject := [], classCounter := 0, headerRow := [], templateRow := [] }
    { cleared with
      thead := [hl.headerRow],
      tbody := some (bodyRows hl.classObject hl.templateRow value.data),
      theadShown := wd.currentSettings.show_header }

/-- The method `onSettingsChanged` of the tabular widget. -/
def TableWidget.onSettingsChanged (wd : TableWidget) (newSettings : TableSettings) : TableWidget :=
  TableWidget.updateState
    { wd with currentSettings := newSettings, title := newSettings.title.getD "" }

/-- The method `onCalculatedValueChanged` of the tabular widget. -/
def TableWidget.onCalculatedValueChanged (wd : TableWidget) (settingName : String)
    (newValue : TableValue) : TableWidget :=
  TableWidget.updateState
    { wd with stateObject :=
        wd.stateObject.filter (fun p => p.1 != settingName) ++ [(settingName, newValue)] }

/-- The constructor `tableWidget`. -/
def tableWidget (settings : TableSettings) : TableWidget :=
  TableWidget.onSettingsChanged
    { currentSettings := settings, stateObject := [], title := "", thead := [],
      theadShown := true, tbody := none } settings

/-! ## The chart widget `graphWidget` -/

/-- The settings of the chart widget that the code reads. -/
structure GraphSettings where
  title : Option String
  deriving DecidableEq, Repr

/-- The part of the configuration given to `new Chart` that depends on the
value; the options are constants. -/
structure ChartConfig where
  type : String
  labels : List String
  label : String
  data : List JsVal
  backgroundColor : List String
  borderColor : List String
  borderWidth : Nat

/-- A chart instance: its configuration, and whether `destroy()` was called. -/
structure Chart where
  config : ChartConfig
  destroyed : Bool

/-- The closure variables of a chart widget. The canvas is the element of the
document that carries the id of the widget. -/
structure GraphWidget where
  id : String
  currentSettings : GraphSettings
  theChart : Option Chart

/-- The constructor `graphWidget`. Its `render` and `onSettingsChanged` call a
function `appendTitle` that the file does not define; they are not modelled,
and a rendered widget is one whose canvas is in the document. -/
def graphWidget (settings : GraphSettings) (w : World) : GraphWidget × World :=
  let g := generateId w
  ({ id := g.1, currentSettings := settings, theChart := none }, g.2)

/-- The canvas of a chart widget, as its constructor creates it. -/
def GraphWidget.canvas (wd : GraphWidget) : Elem :=
  mkElem "canvas" (some wd.id) [] "" []

/-- The method `getHeight` of the chart widget. -/
def GraphWidget.getHeight (wd : GraphWidget) : Nat :=
  if (match wd.currentSettings.title with
      | some t => decide (t ≠ "")
      | none => false) then 7 else 6

/-- The UTF-16 code units of a string, each as a string of its own (a
character outside the basic plane counts twice). -/
def codeUnits (s : String) : List String :=
  s.data.flatMap (fun c =>
    if c.toNat < 65536 then [String.singleton c] else [String.singleton c, String.singleton c])

/-- Pair each item with its index, rendered as a property name. -/
def indexed (items : List JsVal) : List (String × JsVal) :=
  (List.range items.length).map natStr |>.zip items

/-- The own enumerable properties of a value in enumeration order, as
`Object.keys` and `Object.values` list them: a `TypeError` for `undefined` and
`null`, none for a boolean or a number, the code units for a string. -/
def JsVal.entries : JsVal → Except ErrObj (List (String × JsVal))
  | .undefined => .error typeError
  | .null => .error typeError
  | .bool _ => .ok []
  | .num _ => .ok []
  | .str s => .ok (indexed ((codeUnits s).map JsVal.str))
  | .obj props => .ok props

/-- The function `Object.keys`. -/
def Object_keys (v : JsVal) : Except ErrObj (List String) :=
  match v.entries with
  | .ok es => .ok (es.map Prod.fst)
  | .error e => .error e

/-- The function `Object.values`. -/
def Object_values (v : JsVal) : Except ErrObj (List JsVal) :=
  match v.entries with
  | .ok es => .ok (es.map Prod.snd)
  | .error e => .error e

/-- The property read `v[key]` for an own key. -/
def JsVal.get (v : JsVal) (key : String) : JsVal :=
  match v.entries with
  | .ok es => (es.lookup key).getD .undefined
  | .error _ => .undefined

/-- The function `Number.isInteger`. -/
def Number_isInteger : JsVal → Bool
  | .num (.finite q) => q.isInt
  | _ => false

/-- The function `sourceIsValid`. `Object.keys` is evaluated before the `try`;
the `forEach` sits inside it. -/
def sourceIsValid (historyData : JsVal) : Except ErrObj Bool :=
  match Object_keys historyData with
  | .error e => .error e
  | .ok keys =>
    let validLength := decide (keys.length = 28)
    let validValues :=
      match Object_values historyData with
      | .ok vals =>
        vals.foldl (fun validValues val =>
          if !validValues then validValues else validValues && Number_isInteger val) true
      | .error _ => false
    .ok (validLength && validValues)

/-- The colour of the bars. -/
def barColour : String := "rgba(39, 232, 111, 1)"

/-- The configuration `onCalculatedValueChanged` builds for a value;
`momentFormat key` stands for `moment(key).format(\x27ddd (D/M)\x27)`. -/
def chartConfig (momentFormat : String → String) (newValue : JsVal) : ChartConfig :=
  let keys := match Object_keys newValue with
    | .ok ks => ks
    | .error _ => []
  { type := "bar",
    labels := keys.mapIdx (fun index key =>
      if index = 26 then "Yesterday" else if index = 27 then "Today" else momentFormat key),
    label := "On Site",
    data := keys.map (fun x => newValue.get x),
    backgroundColor := List.replicate keys.length barColour,
    borderColor := List.replicate keys.length barColour,
    borderWidth := 1 }

/-- The start of `onCalculatedValueChanged` of the chart widget: an inline
error on display is removed and the canvas is displayed again. -/
def GraphWidget.clearError (wd : GraphWidget) (doc : Doc) : Doc × Option ErrObj :=
  match Elem.removeIn (wd.id ++ "error") doc with
  | none => (doc, none)
  | some doc1 =>
    match Elem.modifyIn wd.id (Elem.setDisplay "inline-block") doc1 with
    | some doc2 => (doc2, none)
    | none => (doc1, some typeError)

/-- The method `onCalculatedValueChanged` of the chart widget. The second
component is the exception raised, if any. -/
def GraphWidget.onCalculatedValueChanged (momentFormat : String → String) (wd : GraphWidget)
    (w : World) (_settingName : String) (newValue : JsVal) :
    (GraphWidget × World) × Option ErrObj :=
  let wd1 := { wd with theChart := wd.theChart.map (fun c => { c with destroyed := true }) }
  match wd.clearError w.doc with
  | (doc1, some e) => ((wd1, { w with doc := doc1 }), some e)
  | (doc1, none) =>
    match sourceIsValid newValue with
    | .error e => ((wd1, { w with doc := doc1 }), some e)
    | .ok true =>
      match Elem.findIn wd.id doc1 with
      | none => ((wd1, { w with doc := doc1 }), some typeError)
      | some _ =>
        let chart : Chart := { config := chartConfig momentFormat newValue, destroyed := false }
        (({ wd1 with theChart := some chart }, { w with doc := doc1 }), none)
    | .ok false =>
      match createWidgetError wd.id doc1 with
      | .error e => ((wd1, { w with doc := doc1 }), some e)
      | .ok doc2 =>
        match Elem.modifyIn wd.id (Elem.setDisplay "none") doc2 with
        | some doc3 => ((wd1, { w with doc := doc3 }), none)
        | none => ((wd1, { w with doc := doc2 }), some typeError)

/-! ## Concrete inputs -/

/-- A page with one empty container, no interval and no request in flight;
the draws of `Math.random()` are numbered. -/
def exampleWorld : World :=
  { doc := [mkElem "div" none [] "" []], random := fun n => natStr n, randomCalls := 0,
    intervals := [], nextHandle := 1, inFlight := [], log := [] }

/-- Settings with every field filled in. -/
def exampleSettings : Settings :=
  { site_ids := some "1,2", group_ids := some "3", client_key := some "key",
    secret_key := some "secret", region_url := some "https://backend.signinapp.com/client-api/v1" }

/-- Settings whose site ids were never filled in. -/
def settingsWithoutSites : Settings :=
  { exampleSettings with site_ids := none }

/-- The request `exampleSettings` leads to. -/
def exampleRequest : Request :=
  { url := "https://backend.signinapp.com/client-api/v1/dashboard",
    sites := [.finite 1, .finite 2], groups := [.finite 3], auth := "key:secret" }

/-- A rejection with HTTP status 401. -/
def unauthorised : ErrObj := { name := "jqXHR", status := .num (.finite 401) }

/-- A numeric widget with the caption `Staff`, rendered in the container of
`exampleWorld`. -/
def renderedBigNumber : BigNumberWidget × World :=
  BigNumberWidget.render (bigNumberWidget { caption := some "Staff" } exampleWorld).1
    (bigNumberWidget { caption := some "Staff" } exampleWorld).2 (0, [])

/-- A chart widget as constructed on the example page. -/
def exampleGraph : GraphWidget :=
  (graphWidget { title := none } exampleWorld).1

/-- A page whose one container holds the canvas of `exampleGraph`. -/
def graphWorld : World :=
  { (graphWidget { title := none } exampleWorld).2 with
    doc := [mkElem "div" none [] "" [exampleGraph.canvas]] }

/-- Twenty-eight daily counts, keyed `d0` to `d27`; day `i` counts `i`. -/
def fourWeeks : JsVal :=
  .obj ((List.range 28).map (fun i => ("d" ++ natStr i, JsVal.num (.finite (i : ℚ)))))

/-- A tabular widget with the default settings. -/
def exampleTable : TableWidget :=
  tableWidget { title := none, show_header := true, replace_value := none }

/-- The value `{header: ["A"], data: [{A: 1, constructor: 2}]}`. -/
def rowWithConstructor : TableValue :=
  { header := ["A"],
    data := [[("A", .num (.finite 1)), ("constructor", .num (.finite 2))]] }

/-- The value `{header: ["A", "B"], data: [{A: 1, B: 2}]}`. -/
def twoColumns : TableValue :=
  { header := ["A", "B"],
    data := [[("A", .num (.finite 1)), ("B", .num (.finite 2))]] }

/-! ## States of the refresh timer -/

/-- The timer is running: the stored handle is that of the one active interval. -/
def timerRunning (s : Datasource × World) : Prop :=
  ∃ h, s.1.refreshTimer = some h ∧ s.2.intervals = [{ handle := h, delay := REFRESH_TIME_MILLIS }]

/-- The timer is off: no handle is stored and no interval is active. -/
def timerOff (s : Datasource × World) : Prop :=
  s.1.refreshTimer = none ∧ s.2.intervals = []

/-! ## Identifier strings and numeric literals -/

/-- The string a list of identifiers is written as: their decimal renderings
joined by commas, as `ids.join(',')` gives it. -/
def joinIds (ns : List Nat) : String :=
  ",".intercalate (ns.map natStr)

/-- A decimal digit. -/
def isDecimalDigit (c : Char) : Bool :=
  decide (48 ≤ c.toNat ∧ c.toNat ≤ 57)

/-- A hexadecimal digit. -/
def isHexDigit (c : Char) : Bool :=
  decide ((48 ≤ c.toNat ∧ c.toNat ≤ 57) ∨ (97 ≤ c.toNat ∧ c.toNat ≤ 102) ∨
    (65 ≤ c.toNat ∧ c.toNat ≤ 70))

/-- An octal digit. -/
def isOctalDigit (c : Char) : Bool :=
  decide (48 ≤ c.toNat ∧ c.toNat ≤ 55)

/-- A binary digit. -/
def isBinaryDigit (c : Char) : Bool :=
  decide (48 ≤ c.toNat ∧ c.toNat ≤ 49)

/-- The grammar symbol `DecimalDigits`: one or more decimal digits. -/
def isDecimalDigits (cs : List Char) : Bool :=
  !cs.isEmpty && cs.all isDecimalDigit

/-- The grammar symbol `ExponentPart`: `e` or `E`, an optional sign, digits. -/
def isExponentPart : List Char → Bool
  | [] => false
  | c :: cs =>
    (c == 'e' || c == 'E') &&
      (match cs with
       | '+' :: r => isDecimalDigits r
       | '-' :: r => isDecimalDigits r
       | r => isDecimalDigits r)

/-- The grammar symbol `StrUnsignedDecimalLiteral`: `Infinity`, or
`digits . digits? exponent?`, or `. digits exponent?`, or `digits exponent?`. -/
def isStrUnsignedDecimalLiteral (cs : List Char) : Bool :=
  cs == "Infinity".data ||
    (match cs.dropWhile isDecimalDigit with
     | '.' :: r =>
       (!(cs.takeWhile isDecimalDigit).isEmpty || !(r.takeWhile isDecimalDigit).isEmpty) &&
         ((r.dropWhile isDecimalDigit).isEmpty || isExponentPart (r.dropWhile isDecimalDigit))
     | tail =>
       !(cs.takeWhile isDecimalDigit).isEmpty && (tail.isEmpty || isExponentPart tail))

/-- The grammar symbol `StrDecimalLiteral`: an optional sign and an unsigned
decimal literal. -/
def isStrDecimalLiteral : List Char → Bool
  | '+' :: r => isStrUnsignedDecimalLiteral r
  | '-' :: r => isStrUnsignedDecimalLiteral r
  | r => isStrUnsignedDecimalLiteral r

/-- The grammar symbol `NonDecimalIntegerLiteral`: `0x`, `0o` or `0b` (in either
case) and one or more digits of that radix. -/
def isNonDecimalIntegerLiteral : List Char → Bool
  | '0' :: 'x' :: r => !r.isEmpty && r.all isHexDigit
  | '0' :: 'X' :: r => !r.isEmpty && r.all isHexDigit
  | '0' :: 'o' :: r => !r.isEmpty && r.all isOctalDigit
  | '0' :: 'O' :: r => !r.isEmpty && r.all isOctalDigit
  | '0' :: 'b' :: r => !r.isEmpty && r.all isBinaryDigit
  | '0' :: 'B' :: r => !r.isEmpty && r.all isBinaryDigit
  | _ => false

/-- The grammar symbol `StringNumericLiteral` of the language standard: white
space only (the empty string included), or a decimal or non-decimal literal
with white space around it. A token is numeric when it is one. -/
def isStringNumericLiteral (s : String) : Bool :=
  match trimWhiteSpace s.data with
  | [] => true
  | cs => isNonDecimalIntegerLiteral cs || isStrDecimalLiteral cs

/-! ## Overlay scenarios -/

/-- The spinner of a new instance after `show = true`, on the example page. -/
def shownOnce : Spinner × World :=
  createSpinner.setShow true exampleWorld

/-- The same spinner after a second `show = true`. -/
def shownTwice : Spinner × World :=
  shownOnce.1.setShow true shownOnce.2

/-- The same spinner after a following `show = false`. -/
def hiddenAfterTwice : Spinner × World :=
  shownTwice.1.setShow false shownTwice.2

/-- The elements that are the root of a loading overlay: class `loader-wrapper`
and an id other than that of the error dialog. -/
def isLoaderRoot (a : Attrs) : Bool :=
  a.classes.contains "loader-wrapper" && a.id != some "error-wrapper"

/-- The elements with the id of the error dialog. -/
def isErrorRoot (a : Attrs) : Bool :=
  a.id == some "error-wrapper"

/-- What can happen to the error dialog: a call of `createError`, or a click on
the Close button. -/
inductive DialogAction where
  | createError (err : ErrObj)
  | closeClick

/-- The effect of a dialog step on the document. The Close button is part of
the dialog, so a click can only happen while a dialog is displayed; `none`
when it cannot. -/
def dialogStep (a : DialogAction) (doc : Doc) : Option Doc :=
  match a with
  | .createError err => some (createError err doc)
  | .closeClick =>
    match errorButtonClick doc with
    | .ok d => some d
    | .error _ => none

/-- The effect of a sequence of dialog steps. -/
def dialogRun : List DialogAction → Doc → Option Doc
  | [], doc => some doc
  | a :: rest, doc =>
    match dialogStep a doc with
    | some d => dialogRun rest d
    | none => none

/-! ## Lemmas on the document and the overlays -/

theorem findIn_append (i : String) (l1 l2 : List Elem) :
    Elem.findIn i (l1 ++ l2) =
      match Elem.findIn i l1 with
      | some r => some r
      | none => Elem.findIn i l2 := by
  induction l1 with
  | nil => simp [Elem.findIn]
  | cons e es ih =>
    simp only [List.cons_append, Elem.findIn]
    cases h : Elem.find i e with
    | some r => simp
    | none => simpa using ih

theorem strictEqNat_iff (v : JsVal) (n : Nat) :
    v.strictEqNat n = true ↔ v = .num (.finite (n : ℚ)) := by
  cases v with
  | num x =>
    cases x with
    | finite q => simp [JsVal.strictEqNat]
    | _ => simp [JsVal.strictEqNat]
  | _ => simp [JsVal.strictEqNat]

theorem setShow_false_shown (sp : Spinner) (w : World) :
    (sp.setShow false w).1.shown = false := by
  unfold Spinner.setShow
  simp only [Bool.false_eq_true, if_false]
  split <;> rfl

theorem setShow_false_log (sp : Spinner) (w : World) :
    (sp.setShow false w).2.log = w.log := by
  unfold Spinner.setShow
  simp only [Bool.false_eq_true, if_false]
  split <;> rfl

theorem getDataSettle_log (ds : Datasource) (w : World) (outcome : Except ErrObj JsVal) :
    (getDataSettle ds w outcome).2.log = w.log ++
      (match outcome with
       | .ok payload => [.spinnerShow false, .updateCallback payload]
       | .error e => [.createError e, .spinnerShow false, .updateCallback JsVal.emptyObject]) := by
  cases outcome with
  | ok p => simp [getDataSettle, World.emit, setShow_false_log]
  | error e => simp [getDataSettle, World.emit, setShow_false_log]

theorem getDataSettle_shown (ds : Datasource) (w : World) (outcome : Except ErrObj JsVal) :
    (getDataSettle ds w outcome).1.spinner.shown = false := by
  simp [getDataSettle, setShow_false_shown]

theorem displayedErrorText_createError (err : ErrObj) (doc : Doc)
    (h : Elem.findIn "error-wrapper" doc = none) :
    displayedErrorText (createError err doc) = some (errorText err) := by
  have hfind : Elem.findIn "error-wrapper" (doc ++ [errorWrapper err]) =
      some (errorWrapper err) := by
    rw [findIn_append, h]
    simp [Elem.findIn, Elem.find, errorWrapper, mkElem]
  simp only [createError, h, displayedErrorText, hfind]
  simp [errorWrapper, mkElem]

/-! ## The data source: fetch cycle and error dialog -/

/-- C1: a fetch cycle calls the update callback exactly once. When the request
cannot be built, `getData` calls `createError` with the exception, hides the
spinner and calls the callback with `{}`, in this order and at once. When the
request is sent, nothing more happens until its response arrives; then, in
whatever state the instance is, the resumption calls `createError` first if the
request failed, sets the `shown` flag to `false`, and calls the callback last,
with the payload on success and with `{}` on failure. -/
theorem getData_calls_back_once (ds : Datasource) (w : World) :
    (∀ e, buildRequest ds.currentSettings = .error e →
      (getData ds w).2.log = w.log ++
          [.getData, .createError e, .spinnerShow false, .updateCallback JsVal.emptyObject] ∧
        (getData ds w).1.spinner.shown = false) ∧
    (∀ req, buildRequest ds.currentSettings = .ok req →
      (getData ds w).2.log = w.log ++ [.getData, .ajax req] ∧
        (getData ds w).2.inFlight = w.inFlight ++ [req] ∧
        ∀ (ds2 : Datasource) (w2 : World) (k : Nat) (outcome : Except ErrObj JsVal),
          k < w2.inFlight.length →
          ∃ s, getDataResume ds2 w2 k outcome = some s ∧
            s.1.spinner.shown = false ∧
            s.2.log = w2.log ++
              (match outcome with
               | .ok payload => [.spinnerShow false, .updateCallback payload]
               | .error e =>
                 [.createError e, .spinnerShow false, .updateCallback JsVal.emptyObject])) := by
  refine ⟨?_, ?_⟩
  · intro e he
    simp [getData, he, getDataSettle_log, getDataSettle_shown, World.emit]
  · intro req hreq
    refine ⟨?_, ?_, ?_⟩
    · simp [getData, hreq, World.emit]
    · simp [getData, hreq, World.emit]
    · intro ds2 w2 k outcome hk
      refine ⟨getDataSettle ds2 { w2 with inFlight := w2.inFlight.eraseIdx k } outcome, ?_, ?_, ?_⟩
      · simp [getDataResume, hk]
      · exact getDataSettle_shown _ _ _
      · exact getDataSettle_log _ _ _

/-- Witness for C1: a cycle that fails while the request is built, and a cycle
whose request is sent. -/
theorem getData_calls_back_once_witness :
    (buildRequest settingsWithoutSites = .error typeError ∧
      (getData { currentSettings := settingsWithoutSites, refreshTimer := none,
                 spinner := createSpinner } exampleWorld).2.log =
        exampleWorld.log ++ [.getData, .createError typeError, .spinnerShow false,
          .updateCallback JsVal.emptyObject]) ∧
    (buildRequest exampleSettings = .ok exampleRequest ∧
      (getData { currentSettings := exampleSettings, refreshTimer := none,
                 spinner := createSpinner } exampleWorld).2.log =
        exampleWorld.log ++ [.getData, .ajax exampleRequest]) :=
  ⟨⟨rfl, ((getData_calls_back_once
      { currentSettings := settingsWithoutSites, refreshTimer := none, spinner := createSpinner }
      exampleWorld).1 typeError rfl).1⟩,
   ⟨rfl, ((getData_calls_back_once
      { currentSettings := exampleSettings, refreshTimer := none, spinner := createSpinner }
      exampleWorld).2 exampleRequest rfl).1⟩⟩

/-- C2: when no error dialog is displayed, the dialog `createError` shows
carries the 401, 422 or 429 message for that status, and the generic message
for every other status, a missing one included. -/
theorem createError_message (err : ErrObj) (doc : Doc)
    (h : Elem.findIn "error-wrapper" doc = none) :
    (err.status = .num (.finite 401) → displayedErrorText (createError err doc) = some
      "401 - unauthorised. Please check that your client key and secret key are correct.") ∧
    (err.status = .num (.finite 422) → displayedErrorText (createError err doc) = some
      "422 - unprocessable entity. Please check that your site ids and group ids are correct.") ∧
    (err.status = .num (.finite 429) → displayedErrorText (createError err doc) = some
      "429 - too many requests. Please close this tab and try again in a few minutes.") ∧
    (err.status ≠ .num (.finite 401) → err.status ≠ .num (.finite 422) →
      err.status ≠ .num (.finite 429) → displayedErrorText (createError err doc) = some
        "Something went wrong. Please check your datasource settings and try again.") := by
  rw [displayedErrorText_createError err doc h]
  have h401 := strictEqNat_iff err.status 401
  have h422 := strictEqNat_iff err.status 422
  have h429 := strictEqNat_iff err.status 429
  simp only [Nat.cast_ofNat] at h401 h422 h429
  refine ⟨?_, ?_, ?_, ?_⟩
  · intro hs
    simp [errorText, h401.mpr hs]
  · intro hs
    have n401 : err.status.strictEqNat 401 = false := by
      rw [hs]; decide
    simp [errorText, n401, h422.mpr hs]
  · intro hs
    have n401 : err.status.strictEqNat 401 = false := by
      rw [hs]; decide
    have n422 : err.status.strictEqNat 422 = false := by
      rw [hs]; decide
    simp [errorText, n401, n422, h429.mpr hs]
  · intro n1 n2 n3
    have n401 : err.status.strictEqNat 401 = false := by
      cases hb : err.status.strictEqNat 401 with
      | false => rfl
      | true => exact absurd (h401.mp hb) n1
    have n422 : err.status.strictEqNat 422 = false := by
      cases hb : err.status.strictEqNat 422 with
      | false => rfl
      | true => exact absurd (h422.mp hb) n2
    have n429 : err.status.strictEqNat 429 = false := by
      cases hb : err.status.strictEqNat 429 with
      | false => rfl
      | true => exact absurd (h429.mp hb) n3
    simp [errorText, n401, n422, n429]

/-- Witness for C2: a 401 rejection on a page without a dialog. -/
theorem createError_message_witness :
    Elem.findIn "error-wrapper" exampleWorld.doc = none ∧
    displayedErrorText (createError unauthorised exampleWorld.doc) = some
      "401 - unauthorised. Please check that your client key and secret key are correct." :=
  ⟨rfl, (createError_message unauthorised exampleWorld.doc rfl).1 rfl⟩

/-! ## The numeric widget -/

theorem dropDigits_nil_iff (cs : List Char) :
    dropDigits cs = [] ↔ ∀ c ∈ cs, 48 ≤ c.toNat ∧ c.toNat ≤ 57 := by
  induction cs with
  | nil => simp [dropDigits]
  | cons c cs ih =>
    by_cases hc : 48 ≤ c.toNat ∧ c.toNat ≤ 57
    · simp [dropDigits, hc, ih]
    · simp only [dropDigits, hc, if_false, List.mem_cons, forall_eq_or_imp, false_and]
      simp

theorem IS_INTEGER_iff (s : String) :
    IS_INTEGER s = true ↔ ∀ c ∈ s.data, 48 ≤ c.toNat ∧ c.toNat ≤ 57 := by
  simp [IS_INTEGER, List.isEmpty_iff, dropDigits_nil_iff]

/-- C3, at the failing input: the pattern `/^[0-9]*$/` accepts the empty
string, so for the value `""` a rendered numeric widget raises nothing, fills
its table with the one row (caption, empty value) and shows no inline error. -/
theorem bigNumber_empty_string_renders :
    IS_INTEGER "" = true ∧
    (BigNumberWidget.onCalculatedValueChanged renderedBigNumber.1 renderedBigNumber.2
      "value" "").2 = none ∧
    (renderedBigNumber.1.tableElem
      (BigNumberWidget.onCalculatedValueChanged renderedBigNumber.1 renderedBigNumber.2
        "value" "").1.2.doc).map Elem.children = some [bigNumberRow (some "Staff") ""] ∧
    Elem.countIn (fun a => a.id == some (renderedBigNumber.1.id ++ "error"))
      (BigNumberWidget.onCalculatedValueChanged renderedBigNumber.1 renderedBigNumber.2
        "value" "").1.2.doc = 0 :=
  ⟨rfl, rfl, rfl, by decide⟩

/-! ## The chart widget -/

theorem foldl_validValues (f : JsVal → Bool) (vals : List JsVal) (b : Bool) :
    vals.foldl (fun validValues val =>
      if !validValues then validValues else validValues && f val) b = (b && vals.all f) := by
  induction vals generalizing b with
  | nil => simp
  | cons v vs ih =>
    simp only [List.foldl_cons, List.all_cons, ih]
    cases b <;> simp

theorem Number_isInteger_iff (v : JsVal) :
    Number_isInteger v = true ↔ ∃ z : ℤ, v = .num (.finite (z : ℚ)) := by
  cases v with
  | num x =>
    cases x with
    | finite q =>
      simp only [Number_isInteger, Rat.isInt, beq_iff_eq, JsVal.num.injEq, JsNumber.finite.injEq]
      constructor
      · intro h
        exact ⟨q.num, ((Rat.den_eq_one_iff q).mp h).symm⟩
      · rintro ⟨z, rfl⟩
        exact Rat.den_intCast z
    | _ => simp [Number_isInteger]
  | _ => simp [Number_isInteger]

theorem sourceIsValid_eq (v : JsVal) (es : List (String × JsVal)) (h : v.entries = .ok es) :
    sourceIsValid v = .ok (decide (es.length = 28) && es.all (fun p => Number_isInteger p.2)) := by
  have key : ∀ l : List (String × JsVal),
      (l.map Prod.snd).all Number_isInteger = l.all (fun p => Number_isInteger p.2) := by
    intro l
    induction l with
    | nil => rfl
    | cons p ps ih => simp only [List.map_cons, List.all_cons, ih]
  simp only [sourceIsValid, Object_keys, Object_values, h, foldl_validValues, key,
    List.length_map, Bool.true_and]

/-- C4: on an object, `sourceIsValid` returns, and it returns `true` exactly
when the object has 28 entries and the value of each is an integer-valued
number. -/
theorem sourceIsValid_object (props : List (String × JsVal)) :
    ∃ b, sourceIsValid (.obj props) = .ok b ∧
      (b = true ↔ props.length = 28 ∧ ∀ p ∈ props, ∃ z : ℤ, p.2 = .num (.finite (z : ℚ))) := by
  refine ⟨_, sourceIsValid_eq (.obj props) props rfl, ?_⟩
  simp [Number_isInteger_iff]

theorem graph_missing_value_raises (momentFormat : String → String) (wd : GraphWidget)
    (w : World) (settingName : String) (v : JsVal) (hv : v = .null ∨ v = .undefined) :
    (GraphWidget.onCalculatedValueChanged momentFormat wd w settingName v).2 = some typeError := by
  unfold GraphWidget.onCalculatedValueChanged
  have hsrc : sourceIsValid v = .error typeError := by
    rcases hv with rfl | rfl <;> rfl
  rcases hc : wd.clearError w.doc with ⟨doc1, _ | e⟩
  · simp [hsrc]
  · have he : e = typeError := by
      unfold GraphWidget.clearError at hc
      split at hc
      · simp at hc
      · split at hc
        · simp at hc
        · simp only [Prod.mk.injEq, Option.some.injEq] at hc
          exact hc.2.symm
    simp [he]

/-- C5, at the failing input: for `null` and for `undefined` a rendered chart
widget raises the `TypeError` of `Object.keys`, which `sourceIsValid` evaluates
before its `try`; no chart is built and the document stays as it was, with the
canvas on display and no inline error. -/
theorem graph_null_value_raises :
    (GraphWidget.onCalculatedValueChanged (fun key => key) exampleGraph graphWorld
      "data" .null).2 = some typeError ∧
    (GraphWidget.onCalculatedValueChanged (fun key => key) exampleGraph graphWorld
      "data" .undefined).2 = some typeError ∧
    (GraphWidget.onCalculatedValueChanged (fun key => key) exampleGraph graphWorld
      "data" .null).1.1.theChart.isNone = true ∧
    (GraphWidget.onCalculatedValueChanged (fun key => key) exampleGraph graphWorld
      "data" .null).1.2.doc = graphWorld.doc :=
  ⟨rfl, rfl, rfl, rfl⟩

theorem lookup_of_nodup (es : List (String × JsVal)) (h : (es.map Prod.fst).Nodup) :
    ∀ p ∈ es, es.lookup p.1 = some p.2 := by
  induction es with
  | nil => simp
  | cons q qs ih =>
    intro p hp
    rw [List.map_cons, List.nodup_cons] at h
    rcases List.mem_cons.mp hp with rfl | hmem
    · simp [List.lookup]
    · have hne : p.1 ≠ q.1 := by
        intro heq
        exact h.1 (heq ▸ List.mem_map_of_mem Prod.fst hmem)
      have hbeq : (p.1 == q.1) = false := by simpa using hne
      obtain ⟨k, b⟩ := q
      simp only [List.lookup, hbeq]
      exact ih h.2 p hmem

theorem entries_of_valid (v : JsVal) (h : sourceIsValid v = .ok true) :
    ∃ es, v.entries = .ok es ∧ es.length = 28 := by
  cases hes : v.entries with
  | error e => simp [sourceIsValid, Object_keys, hes] at h
  | ok es =>
    refine ⟨es, rfl, ?_⟩
    rw [sourceIsValid_eq v es hes] at h
    simp only [Except.ok.injEq, Bool.and_eq_true, decide_eq_true_eq] at h
    exact h.1

/-- C6: for a value `sourceIsValid` accepts, and a canvas that is in the
document once a previous inline error is cleared, `onCalculatedValueChanged`
raises nothing and builds a chart whose configuration has 28 labels and 28
data points in key order: data point `i` is the value read under key `i`
(the value of entry `i`, keys being distinct), label 26 is `Yesterday`, label
27 is `Today`, and each label before is the formatted key. -/
theorem chart_of_valid_value (momentFormat : String → String) (wd : GraphWidget) (w : World)
    (settingName : String) (v : JsVal) (doc1 : Doc)
    (hvalid : sourceIsValid v = .ok true)
    (hclear : wd.clearError w.doc = (doc1, none))
    (hcanvas : (Elem.findIn wd.id doc1).isSome = true) :
    ∃ es, v.entries = .ok es ∧ es.length = 28 ∧
      (GraphWidget.onCalculatedValueChanged momentFormat wd w settingName v).2 = none ∧
      (GraphWidget.onCalculatedValueChanged momentFormat wd w settingName v).1.1.theChart =
        some { config := chartConfig momentFormat v, destroyed := false } ∧
      (chartConfig momentFormat v).labels.length = 28 ∧
      (chartConfig momentFormat v).data.length = 28 ∧
      (∀ i, i < 28 → (chartConfig momentFormat v).data[i]? = es[i]?.map (fun p => v.get p.1)) ∧
      ((es.map Prod.fst).Nodup → (chartConfig momentFormat v).data = es.map Prod.snd) ∧
      (chartConfig momentFormat v).labels[26]? = some "Yesterday" ∧
      (chartConfig momentFormat v).labels[27]? = some "Today" ∧
      (∀ i, i < 26 →
        (chartConfig momentFormat v).labels[i]? = es[i]?.map (fun p => momentFormat p.1)) := by
  obtain ⟨es, hes, hlen⟩ := entries_of_valid v hvalid
  obtain ⟨c, hc⟩ := Option.isSome_iff_exists.mp hcanvas
  have hkeys : Object_keys v = .ok (es.map Prod.fst) := by simp [Object_keys, hes]
  refine ⟨es, hes, hlen, ?_, ?_, ?_, ?_, ?_, ?_, ?_, ?_, ?_⟩
  · simp [GraphWidget.onCalculatedValueChanged, hclear, hvalid, hc]
  · simp [GraphWidget.onCalculatedValueChanged, hclear, hvalid, hc]
  · simp [chartConfig, hkeys, hlen]
  · simp [chartConfig, hkeys, hlen]
  · intro i _
    simp only [chartConfig, hkeys, List.getElem?_map]
    cases es[i]? <;> rfl
  · intro hnd
    simp only [chartConfig, hkeys, List.map_map]
    apply List.map_congr_left
    intro p hp
    simp [JsVal.get, hes, lookup_of_nodup es hnd p hp]
  · have h26 : 26 < es.length := by omega
    simp [chartConfig, hkeys, List.getElem?_mapIdx, List.getElem?_eq_getElem h26]
  · have h27 : 27 < es.length := by omega
    simp [chartConfig, hkeys, List.getElem?_mapIdx, List.getElem?_eq_getElem h27]
  · intro i hi
    have hi26 : i ≠ 26 := by omega
    have hi27 : i ≠ 27 := by omega
    simp only [chartConfig, hkeys, List.getElem?_mapIdx, List.getElem?_map, hi26, hi27,
      if_false]
    cases es[i]? <;> rfl

/-- Witness for C6: four weeks of daily counts given to a rendered chart
widget. -/
theorem chart_of_valid_value_witness :
    sourceIsValid fourWeeks = .ok true ∧
    exampleGraph.clearError graphWorld.doc = (graphWorld.doc, none) ∧
    (Elem.findIn exampleGraph.id graphWorld.doc).isSome = true ∧
    ∃ es, fourWeeks.entries = .ok es ∧ es.length = 28 ∧
      (GraphWidget.onCalculatedValueChanged (fun key => key) exampleGraph graphWorld
        "data" fourWeeks).2 = none ∧
      (GraphWidget.onCalculatedValueChanged (fun key => key) exampleGraph graphWorld
        "data" fourWeeks).1.1.theChart =
        some { config := chartConfig (fun key => key) fourWeeks, destroyed := false } ∧
      (chartConfig (fun key => key) fourWeeks).labels.length = 28 ∧
      (chartConfig (fun key => key) fourWeeks).data.length = 28 ∧
      (∀ i, i < 28 → (chartConfig (fun key => key) fourWeeks).data[i]? =
        es[i]?.map (fun p => fourWeeks.get p.1)) ∧
      ((es.map Prod.fst).Nodup → (chartConfig (fun key => key) fourWeeks).data = es.map Prod.snd) ∧
      (chartConfig (fun key => key) fourWeeks).labels[26]? = some "Yesterday" ∧
      (chartConfig (fun key => key) fourWeeks).labels[27]? = some "Today" ∧
      (∀ i, i < 26 →
        (chartConfig (fun key => key) fourWeeks).labels[i]? = es[i]?.map (fun p => p.1)) :=
  ⟨rfl, rfl, rfl,
    chart_of_valid_value (fun key => key) exampleGraph graphWorld "data" fourWeeks graphWorld.doc
      rfl rfl rfl⟩

/-! ## The tabular widget -/

theorem table_two_columns :
    (exampleTable.onCalculatedValueChanged "value" twoColumns).thead = [["A", "B"]] ∧
    ((exampleTable.onCalculatedValueChanged "value" twoColumns).tbody.map
      (fun rows => rows.map (fun row => row.map (fun c => c.html)))) =
      some [[.num (.finite 1), .num (.finite 2)]] :=
  ⟨rfl, rfl⟩

/-- C7, at the failing input: for `{header: ["A"], data: [{A: 1, constructor: 2}]}`
the key `constructor`, which is not in the header, is found on `classObject`
through `Object.prototype`; the selector built from it is invalid, `find`
raises, the `catch` around the loop logs it, and the row is never appended:
the header row is there but the body has no row. -/
theorem table_drops_row_with_inherited_key :
    (exampleTable.onCalculatedValueChanged "value" rowWithConstructor).thead = [["A"]] ∧
    ((exampleTable.onCalculatedValueChanged "value" rowWithConstructor).tbody.map
      List.length) = some 0 ∧
    rowWithConstructor.data.length = 1 :=
  ⟨rfl, rfl, rfl⟩

/-! ## The data source: the refresh timer -/

theorem setShow_timers (sp : Spinner) (val : Bool) (w : World) :
    (sp.setShow val w).2.intervals = w.intervals ∧
      (sp.setShow val w).2.nextHandle = w.nextHandle := by
  unfold Spinner.setShow
  cases val with
  | true => simp [generateId]
  | false =>
    simp only [Bool.false_eq_true, if_false]
    split <;> simp

theorem getDataSettle_timers (ds : Datasource) (w : World) (outcome : Except ErrObj JsVal) :
    (getDataSettle ds w outcome).1.refreshTimer = ds.refreshTimer ∧
      (getDataSettle ds w outcome).2.intervals = w.intervals ∧
      (getDataSettle ds w outcome).2.nextHandle = w.nextHandle := by
  cases outcome with
  | ok p => simp [getDataSettle, World.emit, setShow_timers]
  | error e => simp [getDataSettle, World.emit, setShow_timers]

theorem getData_timers (ds : Datasource) (w : World) :
    (getData ds w).1.refreshTimer = ds.refreshTimer ∧
      (getData ds w).2.intervals = w.intervals ∧
      (getData ds w).2.nextHandle = w.nextHandle := by
  unfold getData
  cases buildRequest ds.currentSettings with
  | error e =>
    have h := getDataSettle_timers ds (w.emit .getData) (.error e)
    simpa [World.emit] using h
  | ok req => simp [World.emit]

theorem onSettingsChanged_timers (ds : Datasource) (w : World) (n : Settings) :
    (onSettingsChanged ds w n).1.refreshTimer = ds.refreshTimer ∧
      (onSettingsChanged ds w n).2.intervals = w.intervals ∧
      (onSettingsChanged ds w n).2.nextHandle = w.nextHandle := by
  unfold onSettingsChanged updateNow
  have h := getData_timers
    { ds with currentSettings := n, spinner := (ds.spinner.setShow true w).1 }
    ((ds.spinner.setShow true w).2.emit (.spinnerShow true))
  have hs := setShow_timers ds.spinner true w
  simp only [World.emit] at h ⊢
  exact ⟨h.1, h.2.1.trans hs.1, h.2.2.trans hs.2⟩

theorem getDataResume_timers (ds : Datasource) (w : World) (k : Nat)
    (outcome : Except ErrObj JsVal) (s : Datasource × World)
    (h : getDataResume ds w k outcome = some s) :
    s.1.refreshTimer = ds.refreshTimer ∧ s.2.intervals = w.intervals := by
  unfold getDataResume at h
  split at h
  · simp only [Option.some.injEq] at h
    subst h
    have ht := getDataSettle_timers ds { w with inFlight := w.inFlight.eraseIdx k } outcome
    exact ⟨ht.1, ht.2.1⟩
  · simp at h

theorem step_timers (a : Action) (s s1 : Datasource × World) (h : step a s = some s1)
    (ha : ∀ s2, a = .onDispose → s2 = s1 → False) :
    s1.1.refreshTimer = s.1.refreshTimer ∧ s1.2.intervals = s.2.intervals := by
  cases a with
  | tick k =>
    simp only [step] at h
    split at h
    · simp only [Option.some.injEq] at h
      subst h
      exact ⟨(getData_timers s.1 s.2).1, (getData_timers s.1 s.2).2.1⟩
    · simp at h
  | updateNow =>
    simp only [step, Option.some.injEq] at h
    subst h
    exact ⟨(getData_timers s.1 s.2).1, (getData_timers s.1 s.2).2.1⟩
  | onSettingsChanged n =>
    simp only [step, Option.some.injEq] at h
    subst h
    exact ⟨(onSettingsChanged_timers s.1 s.2 n).1, (onSettingsChanged_timers s.1 s.2 n).2.1⟩
  | onDispose => exact absurd rfl (fun e => ha s1 e rfl)
  | response k outcome =>
    simp only [step] at h
    exact getDataResume_timers s.1 s.2 k outcome s1 h

theorem onDispose_timerOff (s : Datasource × World) (h : timerRunning s ∨ timerOff s) :
    timerOff (onDispose s.1 s.2) := by
  rcases h with ⟨k, hk, hi⟩ | ⟨hk, hi⟩
  · simp [timerOff, onDispose, World.clearInterval, hk, hi]
  · simp [timerOff, onDispose, World.clearInterval, hk, hi]

theorem step_keeps_timer_state (a : Action) (s s1 : Datasource × World)
    (h : step a s = some s1) :
    (timerRunning s ∨ timerOff s → timerRunning s1 ∨ timerOff s1) ∧
      (timerOff s → timerOff s1) := by
  by_cases ha : a = .onDispose
  · subst ha
    simp only [step, Option.some.injEq] at h
    subst h
    exact ⟨fun hs => Or.inr (onDispose_timerOff s hs),
      fun hs => onDispose_timerOff s (Or.inr hs)⟩
  · have ht := step_timers a s s1 h (fun _ e _ => ha e)
    unfold timerRunning timerOff
    rw [ht.1, ht.2]
    exact ⟨id, id⟩

theorem run_keeps_timer_state (acts : List Action) :
    ∀ s s1 : Datasource × World, run acts s = some s1 →
      (timerRunning s ∨ timerOff s → timerRunning s1 ∨ timerOff s1) ∧
        (timerOff s → timerOff s1) := by
  induction acts with
  | nil =>
    intro s s1 h
    simp only [run, Option.some.injEq] at h
    subst h
    exact ⟨id, id⟩
  | cons a rest ih =>
    intro s s1 h
    simp only [run] at h
    cases hs : step a s with
    | none => simp [hs] at h
    | some s2 =>
      simp only [hs] at h
      have h1 := step_keeps_timer_state a s s2 hs
      have h2 := ih s2 s1 h
      exact ⟨fun x => h2.1 (h1.1 x), fun x => h2.2 (h1.2 x)⟩

theorem run_append (acts1 acts2 : List Action) :
    ∀ s : Datasource × World,
      run (acts1 ++ acts2) s =
        match run acts1 s with
        | some s1 => run acts2 s1
        | none => none := by
  induction acts1 with
  | nil => intro s; simp [run]
  | cons a rest ih =>
    intro s
    simp only [List.cons_append, run]
    cases step a s with
    | none => rfl
    | some s2 => exact ih s2

theorem siaDatasource_timerRunning (settings : Settings) (w0 : World)
    (h0 : w0.intervals = []) : timerRunning (siaDatasource settings w0) := by
  have hs := setShow_timers createSpinner true w0
  refine ⟨w0.nextHandle, ?_, ?_⟩
  · simp [siaDatasource, createRefreshTimer, World.setInterval, World.emit, hs.2]
  · simp [siaDatasource, createRefreshTimer, World.setInterval, World.emit, hs.1, hs.2, h0]

/-- C8: from the construction of an instance on, whatever the steps (ticks,
`updateNow`, `onSettingsChanged`, `onDispose`, responses), at most one interval
is active; and in every state reached by steps that include an `onDispose`, the
stored handle is `undefined`, no interval is active, and hence no tick can
happen. -/
theorem timer_at_most_one_and_off_after_dispose (settings : Settings) (w0 : World)
    (h0 : w0.intervals = []) :
    (∀ (acts : List Action) (s : Datasource × World),
      run acts (siaDatasource settings w0) = some s → s.2.intervals.length ≤ 1) ∧
    (∀ (acts1 acts2 : List Action) (s : Datasource × World),
      run (acts1 ++ Action.onDispose :: acts2) (siaDatasource settings w0) = some s →
        s.1.refreshTimer = none ∧ s.2.intervals = [] ∧ ∀ h, step (.tick h) s = none) := by
  have hinit := siaDatasource_timerRunning settings w0 h0
  refine ⟨?_, ?_⟩
  · intro acts s hrun
    rcases (run_keeps_timer_state acts _ s hrun).1 (Or.inl hinit) with ⟨k, _, hi⟩ | ⟨_, hi⟩
    · simp [hi]
    · simp [hi]
  · intro acts1 acts2 s hrun
    rw [run_append] at hrun
    cases h1 : run acts1 (siaDatasource settings w0) with
    | none => simp [h1] at hrun
    | some s1 =>
      simp only [h1, run, step] at hrun
      have hs1 := (run_keeps_timer_state acts1 _ s1 h1).1 (Or.inl hinit)
      have hoff := (run_keeps_timer_state acts2 _ s hrun).2 (onDispose_timerOff s1 hs1)
      refine ⟨hoff.1, hoff.2, ?_⟩
      intro h
      simp [step, hoff.2]

/-- Witness for C8: an instance on the example page that ticks, gets new
settings and is disposed of, then asked to update. -/
theorem timer_at_most_one_and_off_after_dispose_witness :
    exampleWorld.intervals = [] ∧
    (run [.tick 1, .onSettingsChanged settingsWithoutSites]
        (siaDatasource exampleSettings exampleWorld)).isSome = true ∧
    (∀ s, run [.tick 1, .onSettingsChanged settingsWithoutSites]
        (siaDatasource exampleSettings exampleWorld) = some s → s.2.intervals.length ≤ 1) ∧
    (run ([.tick 1] ++ Action.onDispose :: [.updateNow])
        (siaDatasource exampleSettings exampleWorld)).isSome = true ∧
    (∀ s, run ([.tick 1] ++ Action.onDispose :: [.updateNow])
        (siaDatasource exampleSettings exampleWorld) = some s →
      s.1.refreshTimer = none ∧ s.2.intervals = [] ∧ ∀ h, step (.tick h) s = none) :=
  ⟨rfl, rfl,
   fun s hs => (timer_at_most_one_and_off_after_dispose exampleSettings exampleWorld rfl).1 _ s hs,
   rfl,
   fun s hs =>
     (timer_at_most_one_and_off_after_dispose exampleSettings exampleWorld rfl).2 _ _ s hs⟩

/-- C9, counterexample: on the example page `onSettingsChanged` leaves the
interval with handle 1, which was active before the call, active, and no other
interval is active after it. -/
theorem onSettingsChanged_replaces_timer_counterexample :
    (siaDatasource exampleSettings exampleWorld).1.refreshTimer = some 1 ∧
    (siaDatasource exampleSettings exampleWorld).2.intervals =
      [{ handle := 1, delay := 60000 }] ∧
    ¬ ((∀ i ∈ (onSettingsChanged (siaDatasource exampleSettings exampleWorld).1
          (siaDatasource exampleSettings exampleWorld).2 settingsWithoutSites).2.intervals,
          i.handle ≠ 1) ∧
       (∃ i ∈ (onSettingsChanged (siaDatasource exampleSettings exampleWorld).1
          (siaDatasource exampleSettings exampleWorld).2 settingsWithoutSites).2.intervals,
          i.handle ≠ 1)) := by
  refine ⟨rfl, rfl, ?_⟩
  rw [(onSettingsChanged_timers _ _ _).2.1]
  intro h
  exact h.1 { handle := 1, delay := 60000 } (by decide) rfl

/-- C9, amended: `onSettingsChanged` does not touch the timer: the stored
handle and the active intervals are after the call what they were before it,
and no interval was created. -/
theorem onSettingsChanged_keeps_timer (ds : Datasource) (w : World) (newSettings : Settings) :
    (onSettingsChanged ds w newSettings).1.refreshTimer = ds.refreshTimer ∧
      (onSettingsChanged ds w newSettings).2.intervals = w.intervals ∧
      (onSettingsChanged ds w newSettings).2.nextHandle = w.nextHandle :=
  onSettingsChanged_timers ds w newSettings

/-! ## The data source: a change of settings -/

theorem setShow_true_log (sp : Spinner) (w : World) :
    (sp.setShow true w).2.log = w.log ∧ (sp.setShow true w).2.inFlight = w.inFlight ∧
      (sp.setShow true w).1.shown = true := by
  simp [Spinner.setShow, generateId]

theorem getData_log (ds : Datasource) (w : World) :
    (getData ds w).2.log = w.log ++ Event.getData ::
      (match buildRequest ds.currentSettings with
       | .ok req => [.ajax req]
       | .error e => [.createError e, .spinnerShow false, .updateCallback JsVal.emptyObject]) := by
  unfold getData
  cases buildRequest ds.currentSettings with
  | error e => simp [getDataSettle_log, World.emit]
  | ok req => simp [World.emit]

theorem getData_settings (ds : Datasource) (w : World) :
    (getData ds w).1.currentSettings = ds.currentSettings := by
  unfold getData
  split
  · rfl
  · rfl

/-- C10: `onSettingsChanged(n)` stores `n`, calls the `show` setter with `true`
and then starts one fetch cycle before it returns. What the cycle does is
determined by `n` alone: when `n` has its identifier fields and credentials
that `btoa` accepts, the request has url `n.region_url + "/dashboard"`, the
sites and groups parsed from `n.site_ids` and `n.group_ids`, and the
credentials `n.client_key:n.secret_key`; it is then in flight with the spinner
shown. Otherwise the cycle ends at once with the error dialog. -/
theorem onSettingsChanged_fetches_with_new_settings (ds : Datasource) (w : World)
    (n : Settings) :
    (onSettingsChanged ds w n).1.currentSettings = n ∧
    (onSettingsChanged ds w n).2.log = w.log ++ Event.spinnerShow true :: Event.getData ::
      (match buildRequest n with
       | .ok req => [.ajax req]
       | .error e => [.createError e, .spinnerShow false, .updateCallback JsVal.emptyObject]) ∧
    (∀ req, buildRequest n = .ok req →
      (onSettingsChanged ds w n).2.inFlight = w.inFlight ++ [req] ∧
        (onSettingsChanged ds w n).1.spinner.shown = true) ∧
    (∀ siteIds groupIds, n.site_ids = some siteIds → n.group_ids = some groupIds →
      (strOf n.client_key ++ ":" ++ strOf n.secret_key).data.all
          (fun c => decide (c.toNat ≤ 255)) = true →
      buildRequest n = .ok
        { url := strOf n.region_url ++ "/dashboard",
          sites := parseIds siteIds,
          groups := parseIds groupIds,
          auth := strOf n.client_key ++ ":" ++ strOf n.secret_key }) := by
  have hs := setShow_true_log ds.spinner w
  refine ⟨?_, ?_, ?_, ?_⟩
  · unfold onSettingsChanged updateNow
    rw [getData_settings]
  · unfold onSettingsChanged updateNow
    rw [getData_log]
    simp [World.emit, hs.1]
  · intro req hreq
    unfold onSettingsChanged updateNow getData
    simp [hreq, World.emit, hs.2.1, hs.2.2]
  · intro siteIds groupIds h1 h2 h3
    simp only [buildRequest, h1, h2, callAPI, DASHBOARD_ENDPOINT]
    rw [if_pos h3]

/-- Witness for C10: the example settings given to an instance on the example
page. -/
theorem onSettingsChanged_fetches_with_new_settings_witness :
    buildRequest exampleSettings = .ok exampleRequest ∧
    (onSettingsChanged (siaDatasource settingsWithoutSites exampleWorld).1
        (siaDatasource settingsWithoutSites exampleWorld).2 exampleSettings).2.inFlight =
      (siaDatasource settingsWithoutSites exampleWorld).2.inFlight ++ [exampleRequest] ∧
    (onSettingsChanged (siaDatasource settingsWithoutSites exampleWorld).1
        (siaDatasource settingsWithoutSites exampleWorld).2 exampleSettings).1.spinner.shown =
      true :=
  ⟨rfl,
   (onSettingsChanged_fetches_with_new_settings
      (siaDatasource settingsWithoutSites exampleWorld).1
      (siaDatasource settingsWithoutSites exampleWorld).2 exampleSettings).2.2.1
      exampleRequest rfl⟩

/-! ## Identifier parsing -/

theorem log2Aux_le (fuel : Nat) : ∀ n k : Nat, n < 2 ^ (k + 1) → log2Aux fuel n ≤ k := by
  induction fuel with
  | zero => intro n k _; simp [log2Aux]
  | succ f ih =>
    intro n k h
    simp only [log2Aux]
    split
    · omega
    · rename_i h2
      cases k with
      | zero => simp at h; omega
      | succ k =>
        have hlt : n / 2 < 2 ^ (k + 1) := by
          rw [Nat.div_lt_iff_lt_mul (by decide)]
          rw [pow_succ] at h
          exact h
        have := ih (n / 2) k hlt
        omega

theorem roundHalfEven_one (n : Nat) : roundHalfEven n 1 = n := by
  simp [roundHalfEven, Nat.mod_one]

theorem roundToDouble_of_lt (n : Nat) (h : n < 2 ^ 53) :
    roundToDouble n 1 = .finite (n : ℚ) := by
  unfold roundToDouble
  by_cases h0 : n = 0
  · simp [h0]
  · simp only [h0, if_false]
    have he : floorLog2Quot n 1 ≤ 52 := by
      have hl := log2Aux_le n n 52 h
      unfold floorLog2Quot
      have h1 : log2Aux 1 1 = 0 := by decide
      simp only [h1]
      split
      · split <;> omega
      · split <;> omega
    split
    · rename_i hu
      have hu0 : max (floorLog2Quot n 1 - 52) (-1074) = 0 := by omega
      simp [hu0, roundHalfEven_one]
    · rename_i hu
      simp only [roundHalfEven_one]
      congr 1
      rw [Rat.mkRat_eq_div]
      push_cast
      field_simp

theorem roundToDouble_of_le (n : Nat) (h : n ≤ 2 ^ 53) :
    roundToDouble n 1 = .finite (n : ℚ) := by
  rcases Nat.lt_or_ge n (2 ^ 53) with hlt | hge
  · exact roundToDouble_of_lt n hlt
  · have hn : n = 2 ^ 53 := Nat.le_antisymm h hge
    subst hn
    decide

theorem digitChar_toNat (k : Nat) (h : k < 10) : (Nat.digitChar k).toNat = 48 + k := by
  interval_cases k <;> rfl

theorem natOfDigits_append (radix : Nat) (ds : List Nat) (d : Nat) :
    natOfDigits radix (ds ++ [d]) = radix * natOfDigits radix ds + d := by
  simp [natOfDigits, List.foldl_append]

theorem toDigitsCore_spec (fuel : Nat) :
    ∀ (n : Nat) (ds : List Char), n < fuel →
      ∃ pre : List Char, Nat.toDigitsCore 10 fuel n ds = pre ++ ds ∧ pre ≠ [] ∧
        (∀ c ∈ pre, 48 ≤ c.toNat ∧ c.toNat ≤ 57) ∧
        natOfDigits 10 (pre.map (fun c => c.toNat - 48)) = n := by
  induction fuel with
  | zero => intro n ds h; omega
  | succ f ih =>
    intro n ds h
    have hd : (Nat.digitChar (n % 10)).toNat = 48 + n % 10 :=
      digitChar_toNat (n % 10) (Nat.mod_lt n (by decide))
    simp only [Nat.toDigitsCore]
    split
    · rename_i hz
      refine ⟨[Nat.digitChar (n % 10)], rfl, by simp, ?_, ?_⟩
      · intro c hc
        simp only [List.mem_singleton] at hc
        subst hc
        omega
      · simp only [List.map_cons, List.map_nil, hd, natOfDigits, List.foldl_cons, List.foldl_nil]
        omega
    · rename_i hz
      have hlt : n / 10 < f := by omega
      obtain ⟨pre, hpre, _, hdig, hval⟩ := ih (n / 10) (Nat.digitChar (n % 10) :: ds) hlt
      refine ⟨pre ++ [Nat.digitChar (n % 10)], ?_, by simp, ?_, ?_⟩
      · rw [hpre]; simp
      · intro c hc
        rcases List.mem_append.mp hc with hc | hc
        · exact hdig c hc
        · simp only [List.mem_singleton] at hc
          subst hc
          omega
      · rw [List.map_append, List.map_cons, List.map_nil, natOfDigits_append, hval, hd]
        omega

theorem natStr_spec (n : Nat) :
    (natStr n).data ≠ [] ∧ (∀ c ∈ (natStr n).data, 48 ≤ c.toNat ∧ c.toNat ≤ 57) ∧
      natOfDigits 10 ((natStr n).data.map (fun c => c.toNat - 48)) = n := by
  obtain ⟨pre, hpre, hne, hdig, hval⟩ := toDigitsCore_spec (n + 1) n [] (Nat.lt_succ_self n)
  have hdata : (natStr n).data = pre := by
    show Nat.toDigitsCore 10 (n + 1) n [] = pre
    rw [hpre, List.append_nil]
  rw [hdata]
  exact ⟨hne, hdig, hval⟩

theorem takeDigits_of_digits (cs : List Char) (h : ∀ c ∈ cs, 48 ≤ c.toNat ∧ c.toNat ≤ 57) :
    takeDigits cs = (cs.map (fun c => c.toNat - 48), []) := by
  induction cs with
  | nil => rfl
  | cons c cs ih =>
    have hc := h c (List.mem_cons_self c cs)
    have ht := ih (fun x hx => h x (List.mem_cons_of_mem c hx))
    simp [takeDigits, digitVal?, hc, ht]

theorem not_whiteSpace_of_digit (c : Char) (h : 48 ≤ c.toNat ∧ c.toNat ≤ 57) :
    isStrWhiteSpace c = false := by
  simp only [isStrWhiteSpace, Bool.or_eq_false_iff, beq_eq_false_iff_ne, ne_eq,
    Bool.and_eq_false_iff, decide_eq_false_iff_not]
  omega

theorem dropWhile_of_head (p : Char → Bool) (c : Char) (cs : List Char) (h : p c = false) :
    (c :: cs).dropWhile p = c :: cs := by
  simp [List.dropWhile, h]

theorem trimWhiteSpace_of_digits (cs : List Char)
    (h : ∀ c ∈ cs, 48 ≤ c.toNat ∧ c.toNat ≤ 57) : trimWhiteSpace cs = cs := by
  unfold trimWhiteSpace
  cases cs with
  | nil => rfl
  | cons c rest =>
    rw [dropWhile_of_head _ c rest (not_whiteSpace_of_digit c (h c (List.mem_cons_self c rest)))]
    cases hr : (c :: rest).reverse with
    | nil => simp at hr
    | cons d tl =>
      have hd : d ∈ c :: rest := by
        rw [← List.mem_reverse, hr]
        exact List.mem_cons_self d tl
      rw [dropWhile_of_head _ d tl (not_whiteSpace_of_digit d (h d hd)), ← hr, List.reverse_reverse]

theorem parseUnsignedDecimal_of_digits (cs : List Char) (hne : cs ≠ [])
    (h : ∀ c ∈ cs, 48 ≤ c.toNat ∧ c.toNat ≤ 57) :
    parseUnsignedDecimal cs = roundToDouble (natOfDigits 10 (cs.map (fun c => c.toNat - 48))) 1 := by
  have hinf : cs ≠ "Infinity".data := by
    intro heq
    have := h 'I' (by rw [heq]; decide)
    revert this
    decide
  unfold parseUnsignedDecimal
  rw [if_neg hinf, takeDigits_of_digits cs h]
  simp [hne, parseExponent, decimalToDouble]

theorem stringToNumber_of_digits (cs : List Char) (hne : cs ≠ [])
    (h : ∀ c ∈ cs, 48 ≤ c.toNat ∧ c.toNat ≤ 57) :
    stringToNumber (String.mk cs) =
      roundToDouble (natOfDigits 10 (cs.map (fun c => c.toNat - 48))) 1 := by
  unfold stringToNumber
  simp only [trimWhiteSpace_of_digits cs h]
  split
  · exact absurd rfl hne
  · exact absurd (h 'x' (by simp)) (by decide)
  · exact absurd (h 'X' (by simp)) (by decide)
  · exact absurd (h 'o' (by simp)) (by decide)
  · exact absurd (h 'O' (by simp)) (by decide)
  · exact absurd (h 'b' (by simp)) (by decide)
  · exact absurd (h 'B' (by simp)) (by decide)
  · exact absurd (h '+' (by simp)) (by decide)
  · exact absurd (h '-' (by simp)) (by decide)
  · exact parseUnsignedDecimal_of_digits _ hne h

theorem stringToNumber_natStr (n : Nat) (h : n ≤ 2 ^ 53) :
    stringToNumber (natStr n) = .finite (n : ℚ) := by
  obtain ⟨hne, hdig, hval⟩ := natStr_spec n
  have := stringToNumber_of_digits (natStr n).data hne hdig
  rw [hval, roundToDouble_of_le n h] at this
  exact this

theorem splitComma_length (cs : List Char) :
    (splitComma cs).length = cs.count ',' + 1 := by
  induction cs with
  | nil => rfl
  | cons c cs ih =>
    simp only [splitComma]
    by_cases hc : c = ','
    · subst hc
      simp [ih]
    · have hcnt : (c :: cs).count ',' = cs.count ',' := by
        rw [List.count_cons_of_ne (Ne.symm hc)]
      rw [if_neg hc, hcnt, ← ih]
      cases hs : splitComma cs with
      | nil => rw [hs] at ih; simp at ih
      | cons t ts => rfl

theorem splitComma_no_comma (t : List Char) (h : ',' ∉ t) : splitComma t = [t] := by
  induction t with
  | nil => rfl
  | cons c cs ih =>
    have hc : c ≠ ',' := fun e => h (e ▸ List.mem_cons_self c cs)
    have hcs : ',' ∉ cs := fun e => h (List.mem_cons_of_mem c e)
    simp [splitComma, hc, ih hcs]

theorem splitComma_token_comma (t rest : List Char) (h : ',' ∉ t) :
    splitComma (t ++ ',' :: rest) = t :: splitComma rest := by
  induction t with
  | nil => simp [splitComma]
  | cons c cs ih =>
    have hc : c ≠ ',' := fun e => h (e ▸ List.mem_cons_self c cs)
    have hcs : ',' ∉ cs := fun e => h (List.mem_cons_of_mem c e)
    simp [splitComma, hc, ih hcs]

theorem intercalate_go_data (as : List String) :
    ∀ acc : String, (String.intercalate.go acc "," as).data =
      acc.data ++ as.flatMap (fun a => ',' :: a.data) := by
  induction as with
  | nil => intro acc; simp [String.intercalate.go]
  | cons a as ih =>
    intro acc
    simp only [String.intercalate.go, ih, String.data_append, List.flatMap_cons]
    simp [List.append_assoc]

theorem splitComma_joined (ts : List String) (h : ∀ t ∈ ts, ',' ∉ t.data) :
    ∀ t0 : List Char, ',' ∉ t0 →
      splitComma (t0 ++ ts.flatMap (fun a => ',' :: a.data)) = t0 :: ts.map String.data := by
  induction ts with
  | nil => intro t0 h0; simpa using splitComma_no_comma t0 h0
  | cons a as ih =>
    intro t0 h0
    have ha : ',' ∉ a.data := h a (List.mem_cons_self a as)
    have has : ∀ t ∈ as, ',' ∉ t.data := fun t ht => h t (List.mem_cons_of_mem a ht)
    rw [List.flatMap_cons, List.cons_append, splitComma_token_comma t0 _ h0, ih has a.data ha]
    rfl

theorem natStr_no_comma (n : Nat) : ',' ∉ (natStr n).data := by
  intro hc
  have := (natStr_spec n).2.1 ',' hc
  revert this
  decide

theorem splitComma_joinIds (n : Nat) (ns : List Nat) :
    splitComma (joinIds (n :: ns)).data = (n :: ns).map (fun k => (natStr k).data) := by
  have hdata : (joinIds (n :: ns)).data =
      (natStr n).data ++ (ns.map natStr).flatMap (fun a => ',' :: a.data) := by
    simp only [joinIds, List.map_cons, String.intercalate]
    exact intercalate_go_data (ns.map natStr) (natStr n)
  rw [hdata, splitComma_joined (ns.map natStr) _ (natStr n).data (natStr_no_comma n)]
  · simp [List.map_map, Function.comp_def]
  · intro t ht
    obtain ⟨k, _, rfl⟩ := List.mem_map.mp ht
    exact natStr_no_comma k

/-- C11, counterexample: the identifier 9007199254740993 (2^53 + 1) does not
come back from its decimal rendering; unary plus yields the nearest double,
9007199254740992. -/
theorem parseIds_roundtrip_counterexample :
    parseIds (joinIds [9007199254740993]) = [.finite 9007199254740992] ∧
    parseIds (joinIds [9007199254740993]) ≠ [.finite 9007199254740993] := by
  decide

/-- C11, amended: for every non-empty list of non-negative integers none of
which exceeds 2^53, parsing the string of their decimal renderings joined by
commas yields exactly that list; and for every string the parsed list has one
entry more than the string has commas. -/
theorem parseIds_roundtrip (ns : List Nat) (hne : ns ≠ []) (hsmall : ∀ n ∈ ns, n ≤ 2 ^ 53)
    (s : String) :
    parseIds (joinIds ns) = ns.map (fun (n : Nat) => JsNumber.finite (n : ℚ)) ∧
    (parseIds s).length = s.data.count ',' + 1 := by
  refine ⟨?_, ?_⟩
  · cases ns with
    | nil => exact absurd rfl hne
    | cons n rest =>
      unfold parseIds
      rw [splitComma_joinIds, List.map_map]
      apply List.map_congr_left
      intro k hk
      exact stringToNumber_natStr k (hsmall k hk)
  · simp [parseIds, splitComma_length]

/-- Witness for C11: the identifiers 1, 2 and 2^53. -/
theorem parseIds_roundtrip_witness :
    ([1, 2, 9007199254740992] : List Nat) ≠ [] ∧
    (∀ n ∈ ([1, 2, 9007199254740992] : List Nat), n ≤ 2 ^ 53) ∧
    parseIds (joinIds [1, 2, 9007199254740992]) =
      ([1, 2, 9007199254740992] : List Nat).map (fun (n : Nat) => JsNumber.finite (n : ℚ)) ∧
    (parseIds "1,,2").length = ("1,,2" : String).data.count ',' + 1 :=
  ⟨by decide, by decide,
   parseIds_roundtrip [1, 2, 9007199254740992] (by decide) (by decide) "1,,2"⟩

/-! ## Tokens that are not numeric -/

theorem roundToDouble_ne_nan (n d : Nat) : roundToDouble n d ≠ .nan := by
  unfold roundToDouble
  split
  · simp
  · simp only
    split
    · split <;> simp
    · simp

theorem decimalToDouble_ne_nan (m : Nat) (e : Int) : decimalToDouble m e ≠ .nan := by
  unfold decimalToDouble
  split <;> exact roundToDouble_ne_nan _ _

theorem neg_eq_nan_iff (x : JsNumber) : x.neg = .nan ↔ x = .nan := by
  cases x <;> simp [JsNumber.neg]

theorem takeDigits_eq (cs : List Char) :
    takeDigits cs = ((cs.takeWhile isDecimalDigit).map (fun c => c.toNat - 48),
      cs.dropWhile isDecimalDigit) := by
  induction cs with
  | nil => rfl
  | cons c cs ih =>
    by_cases hc : 48 ≤ c.toNat ∧ c.toNat ≤ 57
    · simp [takeDigits, digitVal?, hc, ih, isDecimalDigit, List.takeWhile, List.dropWhile]
    · simp [takeDigits, digitVal?, hc, isDecimalDigit, List.takeWhile, List.dropWhile]

theorem isDecimalDigits_iff (r : List Char) :
    isDecimalDigits r = true ↔ (takeDigits r).1 ≠ [] ∧ (takeDigits r).2 = [] := by
  rw [takeDigits_eq]
  simp only [isDecimalDigits, Bool.and_eq_true, Bool.not_eq_true', List.isEmpty_eq_false,
    List.all_eq_true, ne_eq, List.map_eq_nil_iff, List.dropWhile_eq_nil_iff]
  constructor
  · rintro ⟨hne, hall⟩
    refine ⟨?_, hall⟩
    rw [List.takeWhile_eq_self_iff.mpr hall]
    exact hne
  · rintro ⟨hne, hall⟩
    refine ⟨?_, hall⟩
    intro h
    subst h
    simp at hne

theorem isDecimalDigits_false_iff (r : List Char) :
    isDecimalDigits r = false ↔ (takeDigits r).1 = [] ∨ (takeDigits r).2 ≠ [] := by
  rw [← Bool.not_eq_true, isDecimalDigits_iff]
  by_cases h1 : (takeDigits r).1 = [] <;> simp [h1]

theorem parseExponent_none_iff (cs : List Char) :
    parseExponent cs = none ↔ (cs.isEmpty || isExponentPart cs) = false := by
  cases cs with
  | nil => simp [parseExponent]
  | cons c cs =>
    have key : (match cs with
        | '+' :: r => isDecimalDigits r
        | '-' :: r => isDecimalDigits r
        | r => isDecimalDigits r) =
        isDecimalDigits (match cs with
          | '+' :: r => (false, r)
          | '-' :: r => (true, r)
          | r => (false, r) : Bool × List Char).2 := by
      split <;> rfl
    simp only [parseExponent, isExponentPart, List.isEmpty_cons, Bool.false_or, key]
    by_cases hc : c = 'e' ∨ c = 'E'
    · have hb : (c == 'e' || c == 'E') = true := by
        rcases hc with h | h <;> simp [h]
      simp only [hc, if_true, hb, Bool.true_and, isDecimalDigits_false_iff]
      split <;> simp_all
    · have hb : (c == 'e' || c == 'E') = false := by
        simp only [not_or] at hc
        simp [hc.1, hc.2]
      simp [hc, hb]

theorem nan_iff_of_exponent (m : Nat) (k : Nat) (tail : List Char) :
    (match parseExponent tail with
      | none => JsNumber.nan
      | some e => decimalToDouble m (e - k)) = JsNumber.nan ↔
      (tail.isEmpty || isExponentPart tail) = false := by
  rw [← parseExponent_none_iff]
  cases parseExponent tail with
  | none => simp
  | some e => simp [decimalToDouble_ne_nan]

theorem match_no_dot {α : Type} (f g : List Char → α) (rest : List Char) :
    (∀ r, rest ≠ '.' :: r) →
      (match rest with
        | '.' :: r => f r
        | r => g r) = g rest := by
  intro hdot
  split
  · rename_i r
    exact absurd rfl (hdot r)
  · rfl

theorem parseUnsignedDecimal_nan_iff (cs : List Char) :
    parseUnsignedDecimal cs = .nan ↔ isStrUnsignedDecimalLiteral cs = false := by
  unfold parseUnsignedDecimal isStrUnsignedDecimalLiteral
  by_cases hinf : cs = "Infinity".data
  · simp [hinf]
  · have hb : (cs == "Infinity".data) = false := by simpa using hinf
    rw [if_neg hinf, hb, Bool.false_or, takeDigits_eq cs]
    simp only
    generalize cs.dropWhile isDecimalDigit = rest
    generalize cs.takeWhile isDecimalDigit = ip
    by_cases hdot : ∃ r, rest = '.' :: r
    · obtain ⟨r, rfl⟩ := hdot
      simp only [takeDigits_eq r, List.map_eq_nil_iff]
      by_cases hempty : ip = [] ∧ r.takeWhile isDecimalDigit = []
      · simp [hempty.1, hempty.2]
      · rw [if_neg hempty]
        have hne : (!ip.isEmpty || !(r.takeWhile isDecimalDigit).isEmpty) = true := by
          simp only [not_and_or] at hempty
          rcases hempty with h | h
          · simp [List.isEmpty_iff, h]
          · simp [List.isEmpty_iff, h]
        rw [hne, Bool.true_and]
        exact nan_iff_of_exponent _ _ _
    · have hdot2 : ∀ r, rest ≠ '.' :: r := fun r h => hdot ⟨r, h⟩
      have h1 := match_no_dot takeDigits (fun r => (([], r) : List Nat × List Char)) rest hdot2
      have h2 := match_no_dot
        (fun r => (!ip.isEmpty || !(r.takeWhile isDecimalDigit).isEmpty) &&
              ((r.dropWhile isDecimalDigit).isEmpty ||
                isExponentPart (r.dropWhile isDecimalDigit)))
        (fun tail => !ip.isEmpty && (tail.isEmpty || isExponentPart tail)) rest hdot2
      beta_reduce at h1 h2
      rw [h1, h2]
      simp only [List.map_eq_nil_iff, and_true]
      by_cases hempty : ip = []
      · simp [hempty]
      · rw [if_neg hempty]
        have hne : (!ip.isEmpty) = true := by
          simp [List.isEmpty_iff, hempty]
        rw [hne, Bool.true_and]
        exact nan_iff_of_exponent _ _ _

theorem allDigits_isSome (radix : Nat) (cs : List Char) :
    (allDigits? radix cs).isSome =
      cs.all (fun c => (hexVal? c).any (fun d => decide (d < radix))) := by
  induction cs with
  | nil => rfl
  | cons c cs ih =>
    simp only [allDigits?, List.all_cons, ← ih]
    cases hexVal? c with
    | none => simp
    | some d =>
      cases allDigits? radix cs with
      | none => simp
      | some ds =>
        by_cases hd : d < radix <;> simp [hd]

theorem parseRadix_nan_iff (radix : Nat) (cs : List Char) :
    parseRadix radix cs = .nan ↔
      (!cs.isEmpty && cs.all (fun c => (hexVal? c).any (fun d => decide (d < radix)))) = false := by
  rw [← allDigits_isSome]
  unfold parseRadix
  cases cs with
  | nil => simp
  | cons c cs =>
    cases allDigits? radix (c :: cs) with
    | none => simp
    | some ds => simp [roundToDouble_ne_nan]

theorem hexVal_lt_16 (c : Char) :
    (hexVal? c).any (fun d => decide (d < 16)) = isHexDigit c := by
  unfold hexVal? isHexDigit
  split
  · simp only [Option.any_some]
    rw [Bool.eq_iff_iff]
    simp only [decide_eq_true_eq]
    omega
  · split
    · simp only [Option.any_some]
      rw [Bool.eq_iff_iff]
      simp only [decide_eq_true_eq]
      omega
    · split
      · simp only [Option.any_some]
        rw [Bool.eq_iff_iff]
        simp only [decide_eq_true_eq]
        omega
      · simp only [Option.any_none]
        symm
        rw [decide_eq_false_iff_not]
        omega

theorem hexVal_lt_8 (c : Char) :
    (hexVal? c).any (fun d => decide (d < 8)) = isOctalDigit c := by
  unfold hexVal? isOctalDigit
  split
  · simp only [Option.any_some]
    rw [Bool.eq_iff_iff]
    simp only [decide_eq_true_eq]
    omega
  · split
    · simp only [Option.any_some]
      rw [Bool.eq_iff_iff]
      simp only [decide_eq_true_eq]
      omega
    · split
      · simp only [Option.any_some]
        rw [Bool.eq_iff_iff]
        simp only [decide_eq_true_eq]
        omega
      · simp only [Option.any_none]
        symm
        rw [decide_eq_false_iff_not]
        omega

theorem hexVal_lt_2 (c : Char) :
    (hexVal? c).any (fun d => decide (d < 2)) = isBinaryDigit c := by
  unfold hexVal? isBinaryDigit
  split
  · simp only [Option.any_some]
    rw [Bool.eq_iff_iff]
    simp only [decide_eq_true_eq]
    omega
  · split
    · simp only [Option.any_some]
      rw [Bool.eq_iff_iff]
      simp only [decide_eq_true_eq]
      omega
    · split
      · simp only [Option.any_some]
        rw [Bool.eq_iff_iff]
        simp only [decide_eq_true_eq]
        omega
      · simp only [Option.any_none]
        symm
        rw [decide_eq_false_iff_not]
        omega

theorem parseRadix_16_nan_iff (cs : List Char) :
    parseRadix 16 cs = .nan ↔ (!cs.isEmpty && cs.all isHexDigit) = false := by
  rw [parseRadix_nan_iff]
  simp only [hexVal_lt_16]

theorem parseRadix_8_nan_iff (cs : List Char) :
    parseRadix 8 cs = .nan ↔ (!cs.isEmpty && cs.all isOctalDigit) = false := by
  rw [parseRadix_nan_iff]
  simp only [hexVal_lt_8]

theorem parseRadix_2_nan_iff (cs : List Char) :
    parseRadix 2 cs = .nan ↔ (!cs.isEmpty && cs.all isBinaryDigit) = false := by
  rw [parseRadix_nan_iff]
  simp only [hexVal_lt_2]

theorem not_decimal_of_radix_mark (c : Char) (r : List Char)
    (hc : c = 'x' ∨ c = 'X' ∨ c = 'o' ∨ c = 'O' ∨ c = 'b' ∨ c = 'B') :
    isStrDecimalLiteral ('0' :: c :: r) = false := by
  rcases hc with h | h | h | h | h | h <;> subst h <;>
    simp [isStrDecimalLiteral, isStrUnsignedDecimalLiteral, isDecimalDigit, isExponentPart,
      List.dropWhile, List.takeWhile]

theorem literal_of_unmarked (cs : List Char) (hne : cs ≠ [])
    (hx : ∀ r, cs ≠ '0' :: 'x' :: r) (hX : ∀ r, cs ≠ '0' :: 'X' :: r)
    (ho : ∀ r, cs ≠ '0' :: 'o' :: r) (hO : ∀ r, cs ≠ '0' :: 'O' :: r)
    (hb : ∀ r, cs ≠ '0' :: 'b' :: r) (hB : ∀ r, cs ≠ '0' :: 'B' :: r)
    (hp : ∀ r, cs ≠ '+' :: r) (hm : ∀ r, cs ≠ '-' :: r) :
    isNonDecimalIntegerLiteral cs = false ∧
      isStrDecimalLiteral cs = isStrUnsignedDecimalLiteral cs := by
  constructor
  · unfold isNonDecimalIntegerLiteral
    split
    · exact absurd rfl (hx _)
    · exact absurd rfl (hX _)
    · exact absurd rfl (ho _)
    · exact absurd rfl (hO _)
    · exact absurd rfl (hb _)
    · exact absurd rfl (hB _)
    · rfl
  · unfold isStrDecimalLiteral
    split
    · exact absurd rfl (hp _)
    · exact absurd rfl (hm _)
    · rfl

theorem stringToNumber_nan_iff (s : String) :
    stringToNumber s = .nan ↔ isStringNumericLiteral s = false := by
  unfold stringToNumber isStringNumericLiteral
  generalize trimWhiteSpace s.data = cs
  split
  · simp
  · rename_i r
    simp [isNonDecimalIntegerLiteral, not_decimal_of_radix_mark, parseRadix_16_nan_iff]
  · rename_i r
    simp [isNonDecimalIntegerLiteral, not_decimal_of_radix_mark, parseRadix_16_nan_iff]
  · rename_i r
    simp [isNonDecimalIntegerLiteral, not_decimal_of_radix_mark, parseRadix_8_nan_iff]
  · rename_i r
    simp [isNonDecimalIntegerLiteral, not_decimal_of_radix_mark, parseRadix_8_nan_iff]
  · rename_i r
    simp [isNonDecimalIntegerLiteral, not_decimal_of_radix_mark, parseRadix_2_nan_iff]
  · rename_i r
    simp [isNonDecimalIntegerLiteral, not_decimal_of_radix_mark, parseRadix_2_nan_iff]
  · rename_i r
    simp [isNonDecimalIntegerLiteral, isStrDecimalLiteral, parseUnsignedDecimal_nan_iff]
  · rename_i r
    simp [isNonDecimalIntegerLiteral, isStrDecimalLiteral, neg_eq_nan_iff,
      parseUnsignedDecimal_nan_iff]
  · rename_i h0 hx hX ho hO hb hB hp hm
    have hne : cs ≠ [] := fun e => h0 e
    have hl := literal_of_unmarked cs hne (fun r e => hx r e) (fun r e => hX r e)
      (fun r e => ho r e) (fun r e => hO r e) (fun r e => hb r e) (fun r e => hB r e)
      (fun r e => hp r e) (fun r e => hm r e)
    rw [parseUnsignedDecimal_nan_iff]
    cases cs with
    | nil => exact absurd rfl hne
    | cons c rest => simp only [hl.1, hl.2, Bool.false_or]

theorem buildRequest_ids (st : Settings) (req : Request) (h : buildRequest st = .ok req) :
    ∃ siteIds groupIds, st.site_ids = some siteIds ∧ st.group_ids = some groupIds ∧
      req.sites = parseIds siteIds ∧ req.groups = parseIds groupIds := by
  unfold buildRequest at h
  cases hs : st.site_ids with
  | none => simp [hs] at h
  | some siteIds =>
    cases hg : st.group_ids with
    | none => simp [hs, hg] at h
    | some groupIds =>
      simp only [hs, hg, callAPI] at h
      split at h
      · simp only [Except.ok.injEq] at h
        subst h
        exact ⟨siteIds, groupIds, rfl, rfl, rfl, rfl⟩
      · simp at h

/-- C12, counterexample: in `1,,2` the token at position 1 is empty, and it is
parsed to 0, not to `NaN`; the empty string, whose one token is empty, is
parsed to the list with the one entry 0. -/
theorem empty_token_counterexample :
    splitComma ("1,,2" : String).data = [['1'], [], ['2']] ∧
    parseIds "1,,2" = [.finite 1, .finite 0, .finite 2] ∧
    (parseIds "1,,2")[1]? ≠ some .nan ∧
    parseIds "" = [.finite 0] := by
  decide

/-- C12, amended: for every identifier string, a token that is not a numeric
literal of the language (such as `abc`) is parsed to `NaN`, and every other
token to a number that is not `NaN`; in particular an empty token, or one of
white space only, is parsed to 0. The parsed value stands at the position of
its token, and the parsed list is, unchanged, the `sites` or `groups` list of
the request. -/
theorem nonNumeric_token_is_nan (s : String) (i : Nat) (t : List Char)
    (ht : (splitComma s.data)[i]? = some t) :
    (parseIds s)[i]? = some (stringToNumber (String.mk t)) ∧
    (isStringNumericLiteral (String.mk t) = false → (parseIds s)[i]? = some .nan) ∧
    (isStringNumericLiteral (String.mk t) = true →
      ∃ x, (parseIds s)[i]? = some x ∧ x ≠ .nan) ∧
    (trimWhiteSpace t = [] → (parseIds s)[i]? = some (.finite 0)) ∧
    (∀ (st : Settings) (req : Request), buildRequest st = .ok req →
      (st.site_ids = some s → req.sites = parseIds s) ∧
        (st.group_ids = some s → req.groups = parseIds s)) := by
  have hpos : (parseIds s)[i]? = some (stringToNumber (String.mk t)) := by
    simp [parseIds, List.getElem?_map, ht]
  refine ⟨hpos, ?_, ?_, ?_, ?_⟩
  · intro hn
    rw [hpos, (stringToNumber_nan_iff (String.mk t)).mpr hn]
  · intro hn
    refine ⟨_, hpos, ?_⟩
    intro hnan
    have := (stringToNumber_nan_iff (String.mk t)).mp hnan
    rw [hn] at this
    exact Bool.noConfusion this
  · intro hw
    rw [hpos]
    simp [stringToNumber, hw]
  · intro st req hreq
    obtain ⟨siteIds, groupIds, h1, h2, h3, h4⟩ := buildRequest_ids st req hreq
    constructor
    · intro hs
      rw [h1] at hs
      rw [h3, Option.some.inj hs]
    · intro hs
      rw [h2] at hs
      rw [h4, Option.some.inj hs]

/-- Witness for C12: the token `abc` at position 1 of `1,abc,,2`. -/
theorem nonNumeric_token_is_nan_witness :
    (splitComma ("1,abc,,2" : String).data)[1]? = some ("abc" : String).data ∧
    isStringNumericLiteral "abc" = false ∧
    (parseIds "1,abc,,2")[1]? = some .nan :=
  ⟨by decide, by decide,
   (nonNumeric_token_is_nan "1,abc,,2" 1 ("abc" : String).data (by decide)).2.1 (by decide)⟩

/-! ## The loading overlay -/

theorem setShow_true_twice_doc (sp : Spinner) (w : World) :
    ((sp.setShow true w).1.setShow true (sp.setShow true w).2).2.doc =
      w.doc ++ [loaderWrapper ("SIA" ++ w.random w.randomCalls),
        loaderWrapper ("SIA" ++ w.random (w.randomCalls + 1))] := by
  simp [Spinner.setShow, generateId]

/-- C13, at the failing input: on the example page, `show = true` set twice
leaves two loading overlays in the document, where once leaves one; the
spinner keeps only the second id, so the following `show = false` removes the
second overlay and the first stays in the document, with the flag `false`. -/
theorem spinner_shown_twice_leaves_overlay :
    shownOnce.2.doc = exampleWorld.doc ++ [loaderWrapper "SIA0"] ∧
    shownTwice.2.doc = exampleWorld.doc ++ [loaderWrapper "SIA0", loaderWrapper "SIA1"] ∧
    hiddenAfterTwice.2.doc = exampleWorld.doc ++ [loaderWrapper "SIA0"] ∧
    hiddenAfterTwice.1.shown = false ∧
    Elem.countIn isLoaderRoot shownOnce.2.doc = 1 ∧
    Elem.countIn isLoaderRoot shownTwice.2.doc = 2 ∧
    Elem.countIn isLoaderRoot hiddenAfterTwice.2.doc = 1 :=
  ⟨rfl, rfl, rfl, rfl, by decide, by decide, by decide⟩

/-! ## The error dialog -/

mutual
theorem absent_in_elem (i : String) : ∀ e : Elem, Elem.find i e = none →
    e.attrs.id ≠ some i ∧ Elem.removeInside i e = none ∧
      Elem.count (fun a => a.id == some i) e = 0
  | .node a cs, h => by
    simp only [Elem.find] at h
    by_cases ha : a.id = some i
    · simp [ha] at h
    · simp only [ha, if_false] at h
      have hcs := absent_in_forest i cs h
      refine ⟨ha, ?_, ?_⟩
      · simp [Elem.removeInside, hcs.1]
      · simp [Elem.count, ha, hcs.2]
theorem absent_in_forest (i : String) : ∀ es : List Elem, Elem.findIn i es = none →
    Elem.removeIn i es = none ∧ Elem.countIn (fun a => a.id == some i) es = 0
  | [], _ => ⟨rfl, rfl⟩
  | e :: es, h => by
    simp only [Elem.findIn] at h
    cases he : Elem.find i e with
    | some r => simp [he] at h
    | none =>
      simp only [he] at h
      have h1 := absent_in_elem i e he
      have h2 := absent_in_forest i es h
      refine ⟨?_, ?_⟩
      · simp [Elem.removeIn, h1.1, h1.2.1, h2.1]
      · simp [Elem.countIn, h1.2.2, h2.2]
end

theorem countIn_append (p : Attrs → Bool) (l1 l2 : List Elem) :
    Elem.countIn p (l1 ++ l2) = Elem.countIn p l1 + Elem.countIn p l2 := by
  induction l1 with
  | nil => simp [Elem.countIn]
  | cons e es ih => simp [Elem.countIn, ih, Nat.add_assoc]

theorem removeIn_append_last (i : String) (x : Elem) (hx : x.attrs.id = some i) :
    ∀ l : List Elem, Elem.findIn i l = none → Elem.removeIn i (l ++ [x]) = some l := by
  intro l
  induction l with
  | nil => intro _; simp [Elem.removeIn, hx]
  | cons e es ih =>
    intro h
    simp only [Elem.findIn] at h
    cases he : Elem.find i e with
    | some r => simp [he] at h
    | none =>
      simp only [he] at h
      have h1 := absent_in_elem i e he
      simp [Elem.removeIn, h1.1, h1.2.1, ih h]

theorem findIn_with_dialog (doc0 : Doc) (err : ErrObj) :
    (Elem.findIn "error-wrapper" (doc0 ++ [errorWrapper err])).isSome = true := by
  rw [findIn_append]
  cases Elem.findIn "error-wrapper" doc0 with
  | some r => rfl
  | none => simp [Elem.findIn, Elem.find, errorWrapper, mkElem]

theorem dialogStep_keeps_shape (doc0 : Doc) (h0 : Elem.findIn "error-wrapper" doc0 = none)
    (a : DialogAction) (d d1 : Doc) (hstep : dialogStep a d = some d1)
    (hd : d = doc0 ∨ ∃ err, d = doc0 ++ [errorWrapper err]) :
    d1 = doc0 ∨ ∃ err, d1 = doc0 ++ [errorWrapper err] := by
  cases a with
  | createError e =>
    simp only [dialogStep, Option.some.injEq] at hstep
    subst hstep
    rcases hd with rfl | ⟨e0, rfl⟩
    · exact Or.inr ⟨e, by simp [createError, h0]⟩
    · obtain ⟨r, hr⟩ := Option.isSome_iff_exists.mp (findIn_with_dialog doc0 e0)
      exact Or.inr ⟨e0, by simp [createError, hr]⟩
  | closeClick =>
    rcases hd with rfl | ⟨e0, rfl⟩
    · simp [dialogStep, errorButtonClick, (absent_in_forest _ _ h0).1] at hstep
    · have hrem := removeIn_append_last "error-wrapper" (errorWrapper e0) rfl doc0 h0
      simp only [dialogStep, errorButtonClick, hrem, Option.some.injEq] at hstep
      exact Or.inl hstep.symm

theorem dialogRun_keeps_shape (doc0 : Doc) (h0 : Elem.findIn "error-wrapper" doc0 = none)
    (acts : List DialogAction) :
    ∀ d d1 : Doc, dialogRun acts d = some d1 →
      (d = doc0 ∨ ∃ err, d = doc0 ++ [errorWrapper err]) →
      (d1 = doc0 ∨ ∃ err, d1 = doc0 ++ [errorWrapper err]) := by
  induction acts with
  | nil =>
    intro d d1 h hd
    simp only [dialogRun, Option.some.injEq] at h
    exact h ▸ hd
  | cons a rest ih =>
    intro d d1 h hd
    simp only [dialogRun] at h
    cases hs : dialogStep a d with
    | none => simp [hs] at h
    | some d2 =>
      simp only [hs] at h
      exact ih d2 d1 h (dialogStep_keeps_shape doc0 h0 a d d2 hs hd)

/-- C14: from a document with no error dialog, after every sequence of
`createError` calls and clicks on Close: the document holds at most one
element with id `error-wrapper`; while a dialog is displayed `createError`
leaves the document as it is; a click is then possible, and a click leaves no
dialog, after which `createError` shows a dialog with its own message. -/
theorem error_dialog_singleton (doc0 : Doc) (h0 : Elem.findIn "error-wrapper" doc0 = none)
    (acts : List DialogAction) (d : Doc) (hrun : dialogRun acts doc0 = some d) :
    Elem.countIn isErrorRoot d ≤ 1 ∧
    ((Elem.findIn "error-wrapper" d).isSome = true →
      (∀ err, createError err d = d) ∧ ∃ d1, dialogStep .closeClick d = some d1) ∧
    (∀ d1, dialogStep .closeClick d = some d1 →
      Elem.findIn "error-wrapper" d1 = none ∧ Elem.countIn isErrorRoot d1 = 0 ∧
        ∀ err, displayedErrorText (createError err d1) = some (errorText err) ∧
          Elem.countIn isErrorRoot (createError err d1) = 1) := by
  have hshape := dialogRun_keeps_shape doc0 h0 acts doc0 d hrun (Or.inl rfl)
  have hzero : Elem.countIn isErrorRoot doc0 = 0 := (absent_in_forest _ _ h0).2
  have hone : ∀ err, Elem.countIn isErrorRoot (doc0 ++ [errorWrapper err]) = 1 := by
    intro err
    rw [countIn_append, hzero]
    rfl
  have hclose : ∀ err, dialogStep .closeClick (doc0 ++ [errorWrapper err]) = some doc0 := by
    intro err
    have hrem := removeIn_append_last "error-wrapper" (errorWrapper err) rfl doc0 h0
    simp [dialogStep, errorButtonClick, hrem]
  have hnone : dialogStep .closeClick doc0 = none := by
    simp [dialogStep, errorButtonClick, (absent_in_forest _ _ h0).1]
  refine ⟨?_, ?_, ?_⟩
  · rcases hshape with rfl | ⟨e0, rfl⟩
    · rw [hzero]; exact Nat.zero_le 1
    · rw [hone]
  · intro hsome
    rcases hshape with rfl | ⟨e0, rfl⟩
    · rw [h0] at hsome
      exact absurd hsome (by simp)
    · obtain ⟨r, hr⟩ := Option.isSome_iff_exists.mp hsome
      exact ⟨fun err => by simp [createError, hr], doc0, hclose e0⟩
  · intro d1 hstep
    have hd1 : d1 = doc0 := by
      rcases hshape with rfl | ⟨e0, rfl⟩
      · rw [hnone] at hstep
        exact absurd hstep (by simp)
      · rw [hclose e0] at hstep
        exact (Option.some.inj hstep).symm
    subst hd1
    refine ⟨h0, hzero, fun err => ⟨displayedErrorText_createError err d1 h0, ?_⟩⟩
    simp only [createError, h0]
    exact hone err

/-- Witness for C14: two errors, a click, and a third error on the example
page. -/
theorem error_dialog_singleton_witness :
    Elem.findIn "error-wrapper" exampleWorld.doc = none ∧
    dialogRun [.createError unauthorised, .createError typeError, .closeClick,
        .createError typeError] exampleWorld.doc =
      some (exampleWorld.doc ++ [errorWrapper typeError]) ∧
    Elem.countIn isErrorRoot (exampleWorld.doc ++ [errorWrapper typeError]) ≤ 1 :=
  ⟨rfl, rfl,
   (error_dialog_singleton exampleWorld.doc rfl
      [.createError unauthorised, .createError typeError, .closeClick, .createError typeError]
      (exampleWorld.doc ++ [errorWrapper typeError]) rfl).1⟩

end TestingWidget
